import Mathlib

/-!
Verification development for the market-data gateway (fetch-cache-poll-fanout
engine).  The definitions below are a shallow embedding of the TypeScript
sources: the Birdseye variant (`getTokenAddress`, `fetchBirdseyeKlines`,
`setupPolling`, `addSubscription` / `removeSubscription` over a single shared
interval), the `fetchMarketData` variant (`getMintAddress`,
`fetchBirdseyeData`, mock-data fallback, per-symbol `setTimeout` poll chains),
the CoinGecko payload validation, and the `getMarketData` cache-key logic.

Modelling conventions, stated once:
* Network I/O is driven by an oracle: a list of `AttemptOutcome`s, one per
  actual upstream HTTP call, supplied as a parameter.  Exhausting the list is
  modelled as a network error.
* `Date.now()` is modelled by a `now : Nat` parameter per call; time is held
  fixed during one call and advances between calls.
* Numeric OHLCV fields are opaque to every claim under verification, so
  `parseFloat` and the mock generator's floating-point price arithmetic are
  abstracted: a price value `Px` is the raw provider string (parsing is the
  identity injection), and the mock generator draws its price values from a
  supplied stream.  Timestamps, counts, symbols and resolutions are modelled
  exactly.
* JavaScript `Map` / `Set` state is modelled by `String → Option _` maps and
  duplicate-free lists; the plain-object response caches are association
  lists with `cache[k] = v` modelled as a cons (lookup returns the newest
  binding first, i.e. overwrite semantics).
-/

namespace ServerDeploy

/-- An opaque numeric field as delivered by a provider (raw string form;
numeric parsing is abstracted as the identity, see the header note). -/
abbrev Px := String

/-- Error values; the sources throw `Error(message)`, modelled by the
message string. -/
abbrev Err := String

/-- Canonical candle record produced by the fetchers
(`src/types.ts` interface `MarketData`).  The source field `open` is renamed
`open_` (Lean keyword). -/
structure Candle where
  symbol : String
  timestamp : Nat
  open_ : Px
  high : Px
  low : Px
  close : Px
  volume : Px
  resolution : String
deriving DecidableEq, Repr

/-- One item of a Birdseye OHLCV payload (`data.items[i]`). -/
structure RespItem where
  unixTime : Nat
  open_ : Px
  high : Px
  low : Px
  close : Px
  volume : Px
deriving DecidableEq, Repr

/-- Shape of the `data` field of a decoded Birdseye body: it can be missing
(falsy), have a missing / non-array `items`, or hold an array of items. -/
inductive ItemsField where
  | missing : ItemsField
  | notArray : ItemsField
  | arr (items : List RespItem) : ItemsField
deriving DecidableEq, Repr

/-- A decoded 2xx Birdseye body: the `success` flag (checked only by the
`fetchBirdseyeData` variant) and the `data` field. -/
structure Payload where
  success : Bool
  dataField : Option ItemsField
deriving DecidableEq, Repr

/-- Outcome of one upstream HTTP call, as seen by the retry loops:
a 429 with an optional `Retry-After` header value (seconds), any thrown
failure (network error, non-2xx status, JSON decode failure) carrying its
message, or a 2xx response with a decoded body. -/
inductive AttemptOutcome where
  | rateLimited (retryAfter : Option Nat) : AttemptOutcome
  | failure (e : Err) : AttemptOutcome
  | ok2xx (p : Payload) : AttemptOutcome
deriving DecidableEq, Repr

/-- Result of a fetch: returned value or thrown error. -/
inductive FetchResult (α : Type) where
  | ok (val : α) : FetchResult α
  | err (e : Err) : FetchResult α
deriving DecidableEq, Repr

/-! ## Symbol resolvers -/

/-- Table `SYMBOL_TO_ADDRESS` of `src/unnamed/part_002`. -/
def SYMBOL_TO_ADDRESS : List (String × String) :=
  [("SOL", "So11111111111111111111111111111111111111112"),
   ("USDC", "EPjFWdd5AufqSSqeM2qN1xzybapC8G4wEGGkZwyTDt1v"),
   ("BONK", "DezXAZ8z7PnrnRJjz3wXBoRgixCa6xjnB7YaB1pPB263"),
   ("JTO", "jtojtomepa8beP8AuQc6eXt5FriJwfFMwQx2v2f9mCL"),
   ("JUP", "JUPyiwrYJFskUPiHa7hkeR8VUtAeFoSYbKedZNsDvCN"),
   ("PYTH", "HZ1JovNiVvGrGNiiYvEozEVgZ58xaU3RKwX8eACQBCt3"),
   ("RNDR", "rndrizKT3MK1iimdxRdWabcF7Zg7AR5T6rJJaLvQKkJ"),
   ("MSOL", "mSoLzYCxHdYgdzU16g5QSh3i5K3z3KZK7ytfqcJm7So"),
   ("RAY", "4k3Dyjzvzp8eMZWUXbBCjEvwSkkk59S5iCNLY3QrkX6R"),
   ("ORCA", "orcaEKTdK7LKz57vaAYr9QeNsVEPfiu6QeMU1kektZE")]

/-- Function `getTokenAddress` of `src/unnamed/part_002` (lines 25-35): pass a
43/44-character string through as an address, else a single case-sensitive
table lookup, else `null`.  There is no suffix stripping in this variant. -/
def getTokenAddress (symbol : String) : Option String :=
  if symbol.length = 44 ∨ symbol.length = 43 then some symbol
  else SYMBOL_TO_ADDRESS.lookup symbol

/-- Table `SYMBOL_TO_MINT_ADDRESS` of `src/unnamed/part_007` (same content
as the part_002 table, declared separately in the source). -/
def SYMBOL_TO_MINT_ADDRESS : List (String × String) := SYMBOL_TO_ADDRESS

/-- Models `symbol.replace(/USDT$/, '')` of `getMintAddress`: drop one
trailing `USDT` when present.  Stated over the character list so that the
definition evaluates by kernel reduction. -/
def stripUSDT (s : String) : String :=
  if ("USDT".data.isSuffixOf s.data : Bool) then
    String.mk (s.data.take (s.data.length - 4))
  else s

/-- Function `getMintAddress` of `src/unnamed/part_007` (lines 34-49): pass a
43/44-character string through, else strip a trailing `USDT` (only `USDT`)
and do one table lookup on the stripped base symbol. -/
def getMintAddress (symbol : String) : Option String :=
  if symbol.length = 44 ∨ symbol.length = 43 then some symbol
  else SYMBOL_TO_MINT_ADDRESS.lookup (stripUSDT symbol)

/-! ## Response cache -/

/-- A cache entry: candle batch plus write time (`{ data, timestamp }`). -/
structure CacheEntry where
  data : List Candle
  timestamp : Nat
deriving DecidableEq, Repr

/-- The plain-object response caches, as association lists; assignment is
cons (newest binding wins on lookup). -/
abbrev Cache := List (String × CacheEntry)

/-- The cache key `` `${address}-${interval}-${limit}` `` used by both
`fetchBirdseyeKlines` (part_002 line 47) and `fetchMarketData`
(part_007 line 65). -/
def mkCacheKey (addr interval : String) (limit : Nat) : String :=
  addr ++ "-" ++ interval ++ "-" ++ toString limit

/-- Constant `CACHE_TTL` of part_002 (line 38): 5 minutes in milliseconds. -/
def CACHE_TTL : Nat := 5 * 60 * 1000

/-- Constant `CACHE_TTL` of part_007 (line 53): 60000 ms (one minute). -/
def CACHE_TTL_MD : Nat := 60 * 1000

/-- The freshness read `cache[k] && (Date.now() - cache[k].timestamp) < ttl`,
returning the cached batch when fresh. -/
def cacheFresh (ttl : Nat) (c : Cache) (key : String) (now : Nat) :
    Option (List Candle) :=
  match c.lookup key with
  | some e => if now - e.timestamp < ttl then some e.data else none
  | none => none

/-! ## Birdseye retry loop (part_002, `fetchBirdseyeKlines` lines 53-116) -/

/-- Result of running a retry loop: the final value or thrown error, the
waits performed (milliseconds, in order), and the number of upstream HTTP
calls issued. -/
structure LoopRes where
  result : FetchResult (List RespItem)
  waits : List Nat
  calls : Nat
deriving DecidableEq, Repr

/-- part_002 payload validation (lines 80-82):
`!data.data || !Array.isArray(data.data.items)` throws; an empty items
array is accepted. -/
def birdseyeValid2 (p : Payload) : Option (List RespItem) :=
  match p.dataField with
  | some (ItemsField.arr items) => some items
  | _ => none

/-- The part_002 retry loop.  `fuel` is the number of attempts still allowed
(`retries - attempt`), `attemptIdx` the 0-based index of the current attempt,
`lastError` the `lastError` variable.  Per attempt: a 429 always waits
`(Retry-After or 60) * 1000` ms and consumes the attempt; a thrown failure
(also a 2xx body failing validation, which throws
`Empty or invalid response from Birdseye`) records `lastError` and, when a
further attempt remains, backs off `2^attemptIdx * 1000` ms; a valid 2xx body
returns its items.  When the loop exhausts its attempts, the result is
`lastError` (or the generic message when no error was recorded, e.g. an
all-429 run). -/
def attemptLoop2 (outs : List AttemptOutcome) (fuel attemptIdx : Nat)
    (lastError : Option Err) : LoopRes :=
  match fuel with
  | 0 =>
    { result := FetchResult.err
        (lastError.getD "Failed to fetch data from Birdseye"),
      waits := [], calls := 0 }
  | f + 1 =>
    match outs.headD (AttemptOutcome.failure "fetch failed") with
    | AttemptOutcome.rateLimited ra =>
      let r := attemptLoop2 outs.tail f (attemptIdx + 1) lastError
      { result := r.result, waits := ra.getD 60 * 1000 :: r.waits,
        calls := r.calls + 1 }
    | AttemptOutcome.failure e =>
      match f with
      | 0 => { result := FetchResult.err e, waits := [], calls := 1 }
      | f' + 1 =>
        let r := attemptLoop2 outs.tail (f' + 1) (attemptIdx + 1) (some e)
        { result := r.result, waits := 2 ^ attemptIdx * 1000 :: r.waits,
          calls := r.calls + 1 }
    | AttemptOutcome.ok2xx p =>
      match birdseyeValid2 p with
      | some items =>
        { result := FetchResult.ok items, waits := [], calls := 1 }
      | none =>
        let e := "Empty or invalid response from Birdseye"
        match f with
        | 0 => { result := FetchResult.err e, waits := [], calls := 1 }
        | f' + 1 =>
          let r := attemptLoop2 outs.tail (f' + 1) (attemptIdx + 1) (some e)
          { result := r.result, waits := 2 ^ attemptIdx * 1000 :: r.waits,
            calls := r.calls + 1 }

/-- The field mapping of part_002 (lines 84-93) and part_007 (lines 164-173):
seconds to milliseconds on the timestamp, `parseFloat` on the numeric strings
(abstracted as the identity on `Px`), the raw symbol and the internal
interval code copied into each candle. -/
def transformItems (symbol interval : String) (items : List RespItem) :
    List Candle :=
  items.map fun it =>
    { symbol := symbol, timestamp := it.unixTime * 1000,
      open_ := it.open_, high := it.high, low := it.low, close := it.close,
      volume := it.volume, resolution := interval }

/-- Result of one orchestrated fetch: returned value or thrown error, the
cache after the call, upstream calls issued, waits performed. -/
structure FetchRes where
  result : FetchResult (List Candle)
  cache : Cache
  calls : Nat
  waits : List Nat
deriving DecidableEq, Repr

/-- Function `fetchBirdseyeKlines` of `src/unnamed/part_002` (lines 40-122):
resolve, fail fast on an unresolvable symbol; serve a fresh cache entry
without any upstream call; else run the retry loop; on success write the
transformed batch to the cache and return it; on exhausted retries return an
existing (possibly expired) entry, else rethrow the loop's error. -/
def fetchBirdseyeKlines (c : Cache) (now : Nat) (symbol interval : String)
    (limit : Nat) (outs : List AttemptOutcome) : FetchRes :=
  match getTokenAddress symbol with
  | none =>
    { result := FetchResult.err ("Unsupported symbol: " ++ symbol ++
        ". Please use a valid token symbol or address."),
      cache := c, calls := 0, waits := [] }
  | some addr =>
    let key := mkCacheKey addr interval limit
    match cacheFresh CACHE_TTL c key now with
    | some d => { result := FetchResult.ok d, cache := c, calls := 0, waits := [] }
    | none =>
      let r := attemptLoop2 outs 3 0 none
      match r.result with
      | FetchResult.ok items =>
        let td := transformItems symbol interval items
        { result := FetchResult.ok td,
          cache := (key, { data := td, timestamp := now }) :: c,
          calls := r.calls, waits := r.waits }
      | FetchResult.err e =>
        match c.lookup key with
        | some st =>
          { result := FetchResult.ok st.data, cache := c,
            calls := r.calls, waits := r.waits }
        | none =>
          { result := FetchResult.err e, cache := c,
            calls := r.calls, waits := r.waits }

/-! ## fetchMarketData variant (part_007) -/

/-- part_007 payload validation (`fetchBirdseyeData` lines 151-159): the body
must carry `success = true` and an array `data.items`; an empty items array
is accepted here as well. -/
def birdseyeValid7 (p : Payload) : Option (List RespItem) :=
  if p.success then
    match p.dataField with
    | some (ItemsField.arr items) => some items
    | _ => none
  else none

/-- The `fetchBirdseyeData` retry loop of part_007 (lines 114-191).  It
differs from the part_002 loop in two ways: a 429 waits and continues only
when a further attempt remains — on the final attempt it falls through to the
`!response.ok` check and is thrown as `Birdseye API error: 429`, recorded as
`lastError` — and the payload must also carry `success = true`. -/
def attemptLoop7 (outs : List AttemptOutcome) (fuel attemptIdx : Nat)
    (lastError : Option Err) : LoopRes :=
  match fuel with
  | 0 =>
    { result := FetchResult.err
        (lastError.getD "Failed to fetch data from Birdseye"),
      waits := [], calls := 0 }
  | f + 1 =>
    match outs.headD (AttemptOutcome.failure "fetch failed") with
    | AttemptOutcome.rateLimited ra =>
      match f with
      | 0 =>
        { result := FetchResult.err "Birdseye API error: 429",
          waits := [], calls := 1 }
      | f' + 1 =>
        let r := attemptLoop7 outs.tail (f' + 1) (attemptIdx + 1) lastError
        { result := r.result, waits := ra.getD 60 * 1000 :: r.waits,
          calls := r.calls + 1 }
    | AttemptOutcome.failure e =>
      match f with
      | 0 => { result := FetchResult.err e, waits := [], calls := 1 }
      | f' + 1 =>
        let r := attemptLoop7 outs.tail (f' + 1) (attemptIdx + 1) (some e)
        { result := r.result, waits := 2 ^ attemptIdx * 1000 :: r.waits,
          calls := r.calls + 1 }
    | AttemptOutcome.ok2xx p =>
      match birdseyeValid7 p with
      | some items =>
        { result := FetchResult.ok items, waits := [], calls := 1 }
      | none =>
        let e := "Empty or invalid response from Birdseye"
        match f with
        | 0 => { result := FetchResult.err e, waits := [], calls := 1 }
        | f' + 1 =>
          let r := attemptLoop7 outs.tail (f' + 1) (attemptIdx + 1) (some e)
          { result := r.result, waits := 2 ^ attemptIdx * 1000 :: r.waits,
            calls := r.calls + 1 }

/-- The time-step switch of `generateMockData` (part_007 lines 201-210). -/
def timeStepOf (interval : String) : Nat :=
  if interval = "1m" then 60 * 1000
  else if interval = "5m" then 5 * 60 * 1000
  else if interval = "15m" then 15 * 60 * 1000
  else if interval = "1h" then 60 * 60 * 1000
  else if interval = "4h" then 4 * 60 * 60 * 1000
  else if interval = "1d" then 24 * 60 * 60 * 1000
  else 60 * 60 * 1000

/-- Function `generateMockData` of part_007 (lines 194-259): `limit` synthetic candles
ending at `now`, spaced `timeStepOf interval` apart, carrying the raw symbol
and the requested interval as resolution.  The floating-point price/volume
arithmetic (base price times random factors) is abstracted: each candle draws
its five numeric fields from the supplied stream `rand` (see header note). -/
def generateMockData (symbol interval : String) (limit now : Nat)
    (rand : Nat → Px) : List Candle :=
  (List.range limit).map fun i =>
    { symbol := symbol, timestamp := now - (limit - i - 1) * timeStepOf interval,
      open_ := rand (5 * i), high := rand (5 * i + 1), low := rand (5 * i + 2),
      close := rand (5 * i + 3), volume := rand (5 * i + 4),
      resolution := interval }

/-- Function `fetchMarketData` of `src/unnamed/part_007` (lines 56-102): resolve via
`getMintAddress`, fail fast on an unresolvable symbol; serve a fresh entry of
the one-minute-TTL `responseCache` without any upstream call; else run
`fetchBirdseyeData`; on success cache and return the batch; on failure after
all retries generate mock data, cache it under the same key with a fresh
timestamp, and return it (the error is not propagated). -/
def fetchMarketData (rc : Cache) (now : Nat) (symbol interval : String)
    (limit : Nat) (outs : List AttemptOutcome) (rand : Nat → Px) : FetchRes :=
  match getMintAddress symbol with
  | none =>
    { result := FetchResult.err ("Unsupported symbol: " ++ symbol ++
        ". Please use a valid Solana token symbol or mint address."),
      cache := rc, calls := 0, waits := [] }
  | some mint =>
    let key := mkCacheKey mint interval limit
    match cacheFresh CACHE_TTL_MD rc key now with
    | some d => { result := FetchResult.ok d, cache := rc, calls := 0, waits := [] }
    | none =>
      let r := attemptLoop7 outs 3 0 none
      match r.result with
      | FetchResult.ok items =>
        let td := transformItems symbol interval items
        { result := FetchResult.ok td,
          cache := (key, { data := td, timestamp := now }) :: rc,
          calls := r.calls, waits := r.waits }
      | FetchResult.err _ =>
        let mock := generateMockData symbol interval limit now rand
        { result := FetchResult.ok mock,
          cache := (key, { data := mock, timestamp := now }) :: rc,
          calls := r.calls, waits := r.waits }

/-! ## getMarketData cache key (part_007 lines 323-389) -/

/-- Models `symbol.toUpperCase()` characterwise (the table symbols are
ASCII); stated over the character list so that it evaluates by kernel
reduction. -/
def toUpperModel (s : String) : String :=
  String.mk (s.data.map Char.toUpper)

/-- The hardcoded `MINT_ADDRESSES` lookup inside `getMarketData`
(part_007 lines 335-350), applied to the already-uppercased symbol. -/
def gmMintLookup (s : String) : Option String :=
  if s = "SOL" then some "So11111111111111111111111111111111111111112"
  else if s = "BONK" then some "DezXAZ8z7PnrnRJjz3wXBoRgixCa6xjnB7YaB1pPB263"
  else if s = "JTO" then some "jtojtomepa8beP8AuQc6eXt5FriJwfFMwQx2v2f9mCL"
  else none

/-- Symbol resolution of `getMarketData`: uppercase then the hardcoded table;
any miss throws `Unsupported token` (modelled as `none`). -/
def gmResolve (symbol : String) : Option String :=
  gmMintLookup (toUpperModel symbol)

/-- Cache key of `getMarketData` (part_007 line 353):
`` `${normalizedSymbol}-${interval}-${limit}` `` — built from the uppercased
raw symbol, not from the mint address. -/
def gmCacheKey (symbol interval : String) (limit : Nat) : String :=
  toUpperModel symbol ++ "-" ++ interval ++ "-" ++ toString limit

/-! ## CoinGecko payload validation (part_001, `fetchCoinGeckoKlines`) -/

/-- Shape of a decoded CoinGecko 2xx body: an array of klines or a non-array
value.  A kline's numeric content is irrelevant to the claims; only the item
count matters, so items are abstract units. -/
inductive CGBody where
  | notArray : CGBody
  | arr (n : Nat) : CGBody
deriving DecidableEq, Repr

/-- part_001 payload validation (lines 96-98):
`!Array.isArray(data) || data.length === 0` throws — a zero-item array is
rejected there, unlike the Birdseye validations. -/
def coinGeckoValid (b : CGBody) : Bool :=
  match b with
  | CGBody.notArray => false
  | CGBody.arr n => decide (0 < n)

/-! ## Subscription registry, part_007 variant (lines 261-320)

State: `subscriptions : Map<string, Set<any>>` and `activePolling :
Set<string>`, modelled as maps from symbols.  `startPolling` starts a
self-rescheduling `setTimeout` chain for the symbol; nothing ever cancels a
scheduled timeout, so the number of live chains per symbol is part of the
state (`chains`): `startPolling` spawns one, and a fired tick reschedules
itself exactly when `subscriptions.has(symbol)` holds (both the success path
and the catch path reschedule), otherwise the chain ends. -/

/-- A registered listener (`MarketDataSubscription`): an identity plus the
resolution it subscribed with; the delivery callback is the identity. -/
structure Listener where
  id : Nat
  resolution : String
deriving DecidableEq, Repr

/-- Pointwise update of a map from symbols. -/
def upd {α : Type} (f : String → α) (k : String) (v : α) : String → α :=
  fun x => if x = k then v else f x

/-- JS `Set.add`: append the element unless already present. -/
def addElem (cur : List Listener) (l : Listener) : List Listener :=
  if l ∈ cur then cur else cur ++ [l]

/-- part_007 registry state. -/
structure Registry7 where
  subs : String → Option (List Listener)
  activePolling : String → Bool
  chains : String → Nat

/-- The empty initial state of the part_007 module. -/
def init7 : Registry7 :=
  { subs := fun _ => none, activePolling := fun _ => false, chains := fun _ => 0 }

/-- Function `addSubscription` of part_007 (lines 265-276): create the listener set if
missing, insert the listener, and when the symbol is not in `activePolling`,
add it and start one poll chain. -/
def add7 (st : Registry7) (s : String) (l : Listener) : Registry7 :=
  let cur2 := addElem ((st.subs s).getD []) l
  let subs2 := upd st.subs s (some cur2)
  if st.activePolling s then
    { subs := subs2, activePolling := st.activePolling, chains := st.chains }
  else
    { subs := subs2, activePolling := upd st.activePolling s true,
      chains := upd st.chains s (st.chains s + 1) }

/-- Function `removeSubscription` of part_007 (lines 278-284): delete the listener;
when the set becomes empty, delete the symbol's subscription entry and its
`activePolling` entry.  No timer is cancelled. -/
def remove7 (st : Registry7) (s : String) (l : Listener) : Registry7 :=
  match st.subs s with
  | none => st
  | some cur =>
    let cur2 := cur.filter (fun x => x ≠ l)
    if cur2 = [] then
      { subs := upd st.subs s none, activePolling := upd st.activePolling s false,
        chains := st.chains }
    else
      { subs := upd st.subs s (some cur2), activePolling := st.activePolling,
        chains := st.chains }

/-- One scheduled tick of a part_007 poll chain for `s` firing with fetch
result `fr` (the result of `fetchMarketData(symbol, '1m', 1)`): when the
symbol still has a subscription entry, deliver `data[0]` (when non-empty) to
every current listener and reschedule (chain count unchanged — the catch
path also reschedules, delivering nothing); when the entry is gone, the
chain ends.  With no pending chain the tick is a no-op. -/
def tick7 (st : Registry7) (s : String) (fr : FetchResult (List Candle)) :
    Registry7 × List (Listener × Candle) :=
  if st.chains s = 0 then (st, [])
  else
    match st.subs s with
    | none => ({ st with chains := upd st.chains s (st.chains s - 1) }, [])
    | some ls =>
      match fr with
      | FetchResult.ok data =>
        match data.head? with
        | some c => (st, ls.map fun l => (l, c))
        | none => (st, [])
      | FetchResult.err _ => (st, [])

/-- Events of the part_007 registry: the two exported operations plus a
scheduled poll tick firing with its fetch result. -/
inductive Op7 where
  | add (s : String) (l : Listener) : Op7
  | remove (s : String) (l : Listener) : Op7
  | tick (s : String) (fr : FetchResult (List Candle)) : Op7

/-- State transition of one part_007 event. -/
def step7 (st : Registry7) : Op7 → Registry7
  | Op7.add s l => add7 st s l
  | Op7.remove s l => remove7 st s l
  | Op7.tick s fr => (tick7 st s fr).1

/-- Run a sequence of part_007 events from the initial state. -/
def run7 (ops : List Op7) : Registry7 :=
  ops.foldl step7 init7

/-! ## Subscription registry, part_002 variant (lines 123-193)

State: `subscriptions : Map<string, Set>`, `activeSymbols : Set<string>`
(iterated, so kept as an insertion-ordered duplicate-free list) and
`updateInterval`, the single shared interval timer.  `setupPolling` clears
any existing interval and, when `activeSymbols` is non-empty, starts one
interval over a snapshot of `activeSymbols`; `clearInterval` cancels
immediately.  `polling = some syms` models a live interval over the frozen
snapshot `syms`; `none` models no interval. -/

/-- Insert into the ordered duplicate-free symbol list (JS `Set.add`). -/
def insertSym (l : List String) (s : String) : List String :=
  if s ∈ l then l else l ++ [s]

/-- part_002 registry state. -/
structure Registry2 where
  subs : String → Option (List Listener)
  activeSymbols : List String
  polling : Option (List String)

/-- The empty initial state of the part_002 module. -/
def init2 : Registry2 :=
  { subs := fun _ => none, activeSymbols := [], polling := none }

/-- Function `setupPolling` of part_002 (lines 129-150), after the unconditional
`clearInterval`: no interval when no symbol is active, else one interval over
the snapshot of `activeSymbols`. -/
def setupPolling (a : List String) : Option (List String) :=
  if a = [] then none else some a

/-- Function `addSubscription` of part_002 (lines 158-167): insert the listener, add
the symbol to `activeSymbols`, and rebuild the single interval. -/
def add2 (st : Registry2) (s : String) (l : Listener) : Registry2 :=
  let cur2 := addElem ((st.subs s).getD []) l
  let a2 := insertSym st.activeSymbols s
  { subs := upd st.subs s (some cur2), activeSymbols := a2,
    polling := setupPolling a2 }

/-- Function `removeSubscription` of part_002 (lines 168-181): delete the listener;
when the set becomes empty, delete the subscription entry and the symbol from
`activeSymbols`, clear the interval, and rebuild it over the remaining
symbols. -/
def remove2 (st : Registry2) (s : String) (l : Listener) : Registry2 :=
  match st.subs s with
  | none => st
  | some cur =>
    let cur2 := cur.filter (fun x => x ≠ l)
    if cur2 = [] then
      let a2 := st.activeSymbols.filter (fun x => x ≠ s)
      { subs := upd st.subs s none, activeSymbols := a2,
        polling := setupPolling a2 }
    else
      { subs := upd st.subs s (some cur2), activeSymbols := st.activeSymbols,
        polling := st.polling }

/-- Events of the part_002 registry (the poll interval never mutates the
registry, so only the two operations appear). -/
inductive Op2 where
  | add (s : String) (l : Listener) : Op2
  | remove (s : String) (l : Listener) : Op2

/-- State transition of one part_002 event. -/
def step2 (st : Registry2) : Op2 → Registry2
  | Op2.add s l => add2 st s l
  | Op2.remove s l => remove2 st s l

/-- Run a sequence of part_002 events from the initial state. -/
def run2 (ops : List Op2) : Registry2 :=
  ops.foldl step2 init2

/-- Whether the part_002 interval currently polls symbol `s`: a live interval
exists and its frozen snapshot contains `s`. -/
def polled2 (st : Registry2) (s : String) : Prop :=
  s ∈ st.polling.getD []

instance (st : Registry2) (s : String) : Decidable (polled2 st s) := by
  unfold polled2; infer_instance

/-- The per-symbol body of the part_002 interval callback (lines 138-148):
with fetch result `fr` from `fetchBirdseyeKlines(symbol, '1m', 1)`, on
success with a non-empty batch deliver the last candle to every current
listener of `s`; on failure (caught) deliver nothing.  The registry is
never mutated by a tick. -/
def pollStep2 (st : Registry2) (s : String) (fr : FetchResult (List Candle)) :
    List (Listener × Candle) :=
  match fr with
  | FetchResult.err _ => []
  | FetchResult.ok data =>
    match data.getLast? with
    | some c => ((st.subs s).getD []).map fun l => (l, c)
    | none => []

/-- One part_002 poll pass for one symbol, composed with the fetch layer:
run `fetchBirdseyeKlines(s, '1m', 1)` against the shared cache and fan the
result out. -/
def pollOnce (st : Registry2) (c : Cache) (now : Nat) (s : String)
    (outs : List AttemptOutcome) : List (Listener × Candle) × Cache :=
  let r := fetchBirdseyeKlines c now s "1m" 1 outs
  (pollStep2 st s r.result, r.cache)

/-! ## Invariants and auxiliary definitions used by the theorems -/

/-- Registry bookkeeping invariant of the part_007 module: a symbol is in
`activePolling` exactly when it has a subscription entry, subscription
entries are never empty, and a subscribed symbol has at least one live poll
chain. -/
def Inv7 (st : Registry7) : Prop :=
  ∀ s, (st.activePolling s = true ↔ (st.subs s).isSome)
    ∧ (∀ ls, st.subs s = some ls → ls ≠ [])
    ∧ ((st.subs s).isSome → 1 ≤ st.chains s)

/-- Registry invariant of the part_002 module: the single interval is exactly
`setupPolling` of the current `activeSymbols`, a symbol is active exactly
when it has a subscription entry, and subscription entries are never
empty. -/
def Inv2 (st : Registry2) : Prop :=
  st.polling = setupPolling st.activeSymbols
    ∧ (∀ s, s ∈ st.activeSymbols ↔ (st.subs s).isSome)
    ∧ (∀ s ls, st.subs s = some ls → ls ≠ [])

/-- Overwrite every registered listener's stored resolution (used to state
that fanout never consults it). -/
def relabelSubs (r : String) (subs : String → Option (List Listener)) :
    String → Option (List Listener) :=
  fun s => (subs s).map (List.map fun l => { l with resolution := r })

/-- State `Registry2` with every listener's stored resolution overwritten. -/
def relabel2 (r : String) (st : Registry2) : Registry2 :=
  { st with subs := relabelSubs r st.subs }

/-! ## Helper lemmas -/

theorem upd_self {α : Type} (f : String → α) (k : String) (v : α) :
    upd f k v k = v := by
  simp [upd]

theorem upd_other {α : Type} (f : String → α) (k : String) (v : α)
    (x : String) (h : x ≠ k) : upd f k v x = f x := by
  simp [upd, h]

theorem attemptLoop2_calls_le (f : Nat) :
    ∀ (outs : List AttemptOutcome) (k : Nat) (le : Option Err),
      (attemptLoop2 outs f k le).calls ≤ f := by
  induction f with
  | zero => intro outs k le; simp [attemptLoop2]
  | succ f ih =>
    intro outs k le
    unfold attemptLoop2
    cases houts : outs.headD (AttemptOutcome.failure "fetch failed") with
    | rateLimited ra =>
      simpa using Nat.succ_le_succ (ih outs.tail (k + 1) le)
    | failure e =>
      cases f with
      | zero => simp
      | succ f' =>
        simpa using Nat.succ_le_succ (ih outs.tail (k + 1) (some e))
    | ok2xx p =>
      cases hv : birdseyeValid2 p with
      | some items => simp [hv]
      | none =>
        cases f with
        | zero => simp [hv]
        | succ f' =>
          simpa [hv] using
            Nat.succ_le_succ
              (ih outs.tail (k + 1) (some "Empty or invalid response from Birdseye"))

theorem attemptLoop7_calls_le (f : Nat) :
    ∀ (outs : List AttemptOutcome) (k : Nat) (le : Option Err),
      (attemptLoop7 outs f k le).calls ≤ f := by
  induction f with
  | zero => intro outs k le; simp [attemptLoop7]
  | succ f ih =>
    intro outs k le
    unfold attemptLoop7
    cases houts : outs.headD (AttemptOutcome.failure "fetch failed") with
    | rateLimited ra =>
      cases f with
      | zero => simp
      | succ f' =>
        simpa using Nat.succ_le_succ (ih outs.tail (k + 1) le)
    | failure e =>
      cases f with
      | zero => simp
      | succ f' =>
        simpa using Nat.succ_le_succ (ih outs.tail (k + 1) (some e))
    | ok2xx p =>
      cases hv : birdseyeValid7 p with
      | some items => simp [hv]
      | none =>
        cases f with
        | zero => simp [hv]
        | succ f' =>
          simpa [hv] using
            Nat.succ_le_succ
              (ih outs.tail (k + 1) (some "Empty or invalid response from Birdseye"))

theorem attemptLoop2_calls_pos (outs : List AttemptOutcome) (f k : Nat)
    (le : Option Err) : 1 ≤ (attemptLoop2 outs (f + 1) k le).calls := by
  unfold attemptLoop2
  cases houts : outs.headD (AttemptOutcome.failure "fetch failed") with
  | rateLimited ra => simp
  | failure e => cases f <;> simp
  | ok2xx p =>
    cases hv : birdseyeValid2 p with
    | some items => simp [hv]
    | none => cases f <;> simp [hv]

theorem attemptLoop7_calls_pos (outs : List AttemptOutcome) (f k : Nat)
    (le : Option Err) : 1 ≤ (attemptLoop7 outs (f + 1) k le).calls := by
  unfold attemptLoop7
  cases houts : outs.headD (AttemptOutcome.failure "fetch failed") with
  | rateLimited ra => cases f <;> simp
  | failure e => cases f <;> simp
  | ok2xx p =>
    cases hv : birdseyeValid7 p with
    | some items => simp [hv]
    | none => cases f <;> simp [hv]

theorem transformItems_resolution (symbol interval : String)
    (items : List RespItem) :
    ∀ c ∈ transformItems symbol interval items, c.resolution = interval := by
  intro c hc
  simp only [transformItems, List.mem_map] at hc
  obtain ⟨it, -, rfl⟩ := hc
  rfl

/-! ## Claim theorems -/

/-- C3 counterexample: the claim says every 429 response causes a wait of
the `Retry-After` value (60 s when the header is absent), citing both retry
loops.  In the `fetchBirdseyeData` loop of part_007 the wait is guarded by
`attempt < retries - 1`: a 429 on the final attempt waits nothing and is
thrown terminally as `Birdseye API error: 429`.  Concretely, a run of three
429 responses with no `Retry-After` header performs only two 60-second
waits — the final 429 causes no wait — and the call fails with the 429
error. -/
theorem C3_counterexample :
    (attemptLoop7 [AttemptOutcome.rateLimited none,
        AttemptOutcome.rateLimited none, AttemptOutcome.rateLimited none]
        3 0 none =
      { result := FetchResult.err "Birdseye API error: 429",
        waits := [60000, 60000], calls := 3 })
    ∧ (attemptLoop7 [AttemptOutcome.rateLimited none,
        AttemptOutcome.rateLimited none, AttemptOutcome.rateLimited none]
        3 0 none).waits.length = 2 := by
  exact ⟨by decide, by decide⟩

/-- C3 amended: every upstream fetch performs at most 3 attempts in total; a
non-429 failure on attempt k that is followed by a further attempt backs off
`2^k` seconds (1s, 2s for k = 0, 1; the final attempt has no next attempt
and no backoff); a 429 consumes one attempt from the same fuel budget as any
other failure; after the final attempt fails the call fails with the last
observed error.  The 429 wait differs between the variants: the part_002
loop always waits the `Retry-After` value in seconds (60 when the header is
absent), while the part_007 loop waits only when a further attempt remains —
a 429 on the final attempt waits nothing and is thrown terminally as
`Birdseye API error: 429`, which becomes the last observed error.  Stated by
the attempt-budget bounds on both fetch entry points, the one-step unfolding
laws of both retry loops, and closed all-fail runs of each loop. -/
theorem C3_retry_policy_amended :
    (∀ (c : Cache) (now : Nat) (s i : String) (l : Nat)
        (outs : List AttemptOutcome),
        (fetchBirdseyeKlines c now s i l outs).calls ≤ 3)
    ∧ (∀ (rc : Cache) (now : Nat) (s i : String) (l : Nat)
        (outs : List AttemptOutcome) (rand : Nat → Px),
        (fetchMarketData rc now s i l outs rand).calls ≤ 3)
    ∧ (∀ (outs : List AttemptOutcome) (f k : Nat) (le : Option Err)
        (ra : Option Nat),
        attemptLoop2 (AttemptOutcome.rateLimited ra :: outs) (f + 1) k le =
          { result := (attemptLoop2 outs f (k + 1) le).result,
            waits := ra.getD 60 * 1000 :: (attemptLoop2 outs f (k + 1) le).waits,
            calls := (attemptLoop2 outs f (k + 1) le).calls + 1 })
    ∧ (∀ (outs : List AttemptOutcome) (f k : Nat) (le : Option Err) (e : Err),
        attemptLoop2 (AttemptOutcome.failure e :: outs) (f + 2) k le =
          { result := (attemptLoop2 outs (f + 1) (k + 1) (some e)).result,
            waits := 2 ^ k * 1000 ::
              (attemptLoop2 outs (f + 1) (k + 1) (some e)).waits,
            calls := (attemptLoop2 outs (f + 1) (k + 1) (some e)).calls + 1 })
    ∧ (∀ (outs : List AttemptOutcome) (k : Nat) (le : Option Err) (e : Err),
        attemptLoop2 (AttemptOutcome.failure e :: outs) 1 k le =
          { result := FetchResult.err e, waits := [], calls := 1 })
    ∧ (∀ e1 e2 e3 : Err,
        attemptLoop2 [AttemptOutcome.failure e1, AttemptOutcome.failure e2,
            AttemptOutcome.failure e3] 3 0 none =
          { result := FetchResult.err e3, waits := [1000, 2000], calls := 3 })
    ∧ (∀ (outs : List AttemptOutcome) (f k : Nat) (le : Option Err)
        (ra : Option Nat),
        attemptLoop7 (AttemptOutcome.rateLimited ra :: outs) (f + 2) k le =
          { result := (attemptLoop7 outs (f + 1) (k + 1) le).result,
            waits := ra.getD 60 * 1000 ::
              (attemptLoop7 outs (f + 1) (k + 1) le).waits,
            calls := (attemptLoop7 outs (f + 1) (k + 1) le).calls + 1 })
    ∧ (∀ (outs : List AttemptOutcome) (k : Nat) (le : Option Err)
        (ra : Option Nat),
        attemptLoop7 (AttemptOutcome.rateLimited ra :: outs) 1 k le =
          { result := FetchResult.err "Birdseye API error: 429",
            waits := [], calls := 1 })
    ∧ (∀ (outs : List AttemptOutcome) (f k : Nat) (le : Option Err) (e : Err),
        attemptLoop7 (AttemptOutcome.failure e :: outs) (f + 2) k le =
          { result := (attemptLoop7 outs (f + 1) (k + 1) (some e)).result,
            waits := 2 ^ k * 1000 ::
              (attemptLoop7 outs (f + 1) (k + 1) (some e)).waits,
            calls := (attemptLoop7 outs (f + 1) (k + 1) (some e)).calls + 1 })
    ∧ (∀ (outs : List AttemptOutcome) (k : Nat) (le : Option Err) (e : Err),
        attemptLoop7 (AttemptOutcome.failure e :: outs) 1 k le =
          { result := FetchResult.err e, waits := [], calls := 1 })
    ∧ (∀ e1 e2 e3 : Err,
        attemptLoop7 [AttemptOutcome.failure e1, AttemptOutcome.failure e2,
            AttemptOutcome.failure e3] 3 0 none =
          { result := FetchResult.err e3, waits := [1000, 2000], calls := 3 }) := by
  refine ⟨?_, ?_, ?_, ?_, ?_, ?_, ?_, ?_, ?_, ?_, ?_⟩
  · intro c now s i l outs
    unfold fetchBirdseyeKlines
    cases h0 : getTokenAddress s with
    | none => simp
    | some addr =>
      cases h1 : cacheFresh CACHE_TTL c (mkCacheKey addr i l) now with
      | some d => simp [h1]
      | none =>
        have hle := attemptLoop2_calls_le 3 outs 0 none
        cases h : (attemptLoop2 outs 3 0 none).result with
        | ok items => simpa [h1, h] using hle
        | err e =>
          cases h2 : c.lookup (mkCacheKey addr i l) <;>
            simpa [h1, h, h2] using hle
  · intro rc now s i l outs rand
    unfold fetchMarketData
    cases h0 : getMintAddress s with
    | none => simp
    | some mint =>
      cases h1 : cacheFresh CACHE_TTL_MD rc (mkCacheKey mint i l) now with
      | some d => simp [h1]
      | none =>
        have hle := attemptLoop7_calls_le 3 outs 0 none
        cases h : (attemptLoop7 outs 3 0 none).result with
        | ok items => simpa [h1, h] using hle
        | err e => simpa [h1, h] using hle
  · intro outs f k le ra
    rfl
  · intro outs f k le e
    rfl
  · intro outs k le e
    rfl
  · intro e1 e2 e3
    rfl
  · intro outs f k le ra
    rfl
  · intro outs k le ra
    rfl
  · intro outs f k le e
    rfl
  · intro outs k le e
    rfl
  · intro e1 e2 e3
    rfl

/-- C8: a failure of the fetch performed during a poll tick is caught and
never terminates the polling task nor removes any listener; no error value
is delivered to subscribers.  In the part_002 interval variant a failed
per-symbol pass delivers nothing and the registry is untouched (the interval
is not cleared by the tick); in the part_007 chain variant a failed tick of
a subscribed symbol leaves the whole registry state — listener sets,
`activePolling` and the pending-chain count — unchanged and delivers
nothing (the catch branch reschedules the chain). -/
theorem C8_poll_failure_isolated :
    (∀ (st : Registry2) (s : String) (e : Err),
        pollStep2 st s (FetchResult.err e) = [])
    ∧ (∀ (st : Registry2) (c : Cache) (now : Nat) (s : String)
        (outs : List AttemptOutcome) (e : Err),
        (fetchBirdseyeKlines c now s "1m" 1 outs).result = FetchResult.err e →
        (pollOnce st c now s outs).1 = [])
    ∧ (∀ (st : Registry7) (s : String) (e : Err) (ls : List Listener),
        st.subs s = some ls →
        tick7 st s (FetchResult.err e) = (st, [])) := by
  refine ⟨?_, ?_, ?_⟩
  · intro st s e
    rfl
  · intro st c now s outs e h
    simp [pollOnce, h, pollStep2]
  · intro st s e ls h
    unfold tick7
    by_cases hc : st.chains s = 0
    · simp [hc]
    · simp [hc, h]

/-- C8 witness: a concrete failed part_007 tick for a subscribed symbol
leaves the state unchanged and delivers nothing. -/
theorem C8_witness :
    tick7 (add7 init7 "SOL" { id := 1, resolution := "1h" }) "SOL"
        (FetchResult.err "boom") =
      (add7 init7 "SOL" { id := 1, resolution := "1h" }, []) := by
  exact C8_poll_failure_isolated.2.2
    (add7 init7 "SOL" { id := 1, resolution := "1h" }) "SOL" "boom"
    [{ id := 1, resolution := "1h" }] rfl

/-- C1: the fetch orchestrator `fetchBirdseyeKlines` decides its result in
strict order, first match wins: an unresolvable symbol fails with the
unsupported-symbol error and performs no upstream call; a fresh cache entry
is returned with no upstream call; otherwise the retry loop runs and on
success its transformed result is written to the cache and returned; on
failure after all retries an existing (possibly expired) cache entry is
returned unchanged; only with no cache entry at all is the upstream error
propagated. -/
theorem C1_orchestrator_order (c : Cache) (now : Nat) (symbol interval : String)
    (limit : Nat) (outs : List AttemptOutcome) :
    (getTokenAddress symbol = none →
      fetchBirdseyeKlines c now symbol interval limit outs =
        { result := FetchResult.err ("Unsupported symbol: " ++ symbol ++
            ". Please use a valid token symbol or address."),
          cache := c, calls := 0, waits := [] })
    ∧ (∀ addr d, getTokenAddress symbol = some addr →
        cacheFresh CACHE_TTL c (mkCacheKey addr interval limit) now = some d →
        fetchBirdseyeKlines c now symbol interval limit outs =
          { result := FetchResult.ok d, cache := c, calls := 0, waits := [] })
    ∧ (∀ addr items, getTokenAddress symbol = some addr →
        cacheFresh CACHE_TTL c (mkCacheKey addr interval limit) now = none →
        (attemptLoop2 outs 3 0 none).result = FetchResult.ok items →
        fetchBirdseyeKlines c now symbol interval limit outs =
          { result := FetchResult.ok (transformItems symbol interval items),
            cache := (mkCacheKey addr interval limit,
              { data := transformItems symbol interval items, timestamp := now }) :: c,
            calls := (attemptLoop2 outs 3 0 none).calls,
            waits := (attemptLoop2 outs 3 0 none).waits })
    ∧ (∀ addr e st, getTokenAddress symbol = some addr →
        cacheFresh CACHE_TTL c (mkCacheKey addr interval limit) now = none →
        (attemptLoop2 outs 3 0 none).result = FetchResult.err e →
        c.lookup (mkCacheKey addr interval limit) = some st →
        fetchBirdseyeKlines c now symbol interval limit outs =
          { result := FetchResult.ok st.data, cache := c,
            calls := (attemptLoop2 outs 3 0 none).calls,
            waits := (attemptLoop2 outs 3 0 none).waits })
    ∧ (∀ addr e, getTokenAddress symbol = some addr →
        cacheFresh CACHE_TTL c (mkCacheKey addr interval limit) now = none →
        (attemptLoop2 outs 3 0 none).result = FetchResult.err e →
        c.lookup (mkCacheKey addr interval limit) = none →
        fetchBirdseyeKlines c now symbol interval limit outs =
          { result := FetchResult.err e, cache := c,
            calls := (attemptLoop2 outs 3 0 none).calls,
            waits := (attemptLoop2 outs 3 0 none).waits }) := by
  refine ⟨?_, ?_, ?_, ?_, ?_⟩
  · intro h
    unfold fetchBirdseyeKlines
    simp [h]
  · intro addr d h hf
    unfold fetchBirdseyeKlines
    simp [h, hf]
  · intro addr items h hf hr
    unfold fetchBirdseyeKlines
    simp [h, hf, hr]
  · intro addr e st h hf hr hl
    unfold fetchBirdseyeKlines
    simp [h, hf, hr, hl]
  · intro addr e h hf hr hl
    unfold fetchBirdseyeKlines
    simp [h, hf, hr, hl]

/-- C1 witness: concrete instances of all five branches of the orchestrator
contract — unresolvable symbol with zero upstream calls, fresh cache hit
with zero upstream calls, live-fetch success writing the cache, stale
fallback on exhausted retries, and hard failure on an empty cache. -/
theorem C1_witness :
    (fetchBirdseyeKlines [] 0 "XYZ" "1h" 100 [] =
      { result := FetchResult.err ("Unsupported symbol: " ++ "XYZ" ++
          ". Please use a valid token symbol or address."),
        cache := [], calls := 0, waits := [] })
    ∧ (fetchBirdseyeKlines
        [(mkCacheKey "So11111111111111111111111111111111111111112" "1h" 100,
          { data := [], timestamp := 0 })] 50 "SOL" "1h" 100
        [AttemptOutcome.failure "down"] =
      { result := FetchResult.ok [],
        cache := [(mkCacheKey "So11111111111111111111111111111111111111112" "1h" 100,
          { data := [], timestamp := 0 })],
        calls := 0, waits := [] })
    ∧ (fetchBirdseyeKlines [] 7 "SOL" "1h" 100
        [AttemptOutcome.ok2xx
          { success := true,
            dataField := some (ItemsField.arr [⟨9, "1", "2", "3", "4", "5"⟩]) }] =
      { result := FetchResult.ok
          (transformItems "SOL" "1h" [⟨9, "1", "2", "3", "4", "5"⟩]),
        cache := [(mkCacheKey "So11111111111111111111111111111111111111112" "1h" 100,
          { data := transformItems "SOL" "1h" [⟨9, "1", "2", "3", "4", "5"⟩],
            timestamp := 7 })],
        calls := 1, waits := [] })
    ∧ (fetchBirdseyeKlines
        [(mkCacheKey "So11111111111111111111111111111111111111112" "1h" 100,
          { data := [], timestamp := 0 })] 400000 "SOL" "1h" 100
        [AttemptOutcome.failure "down", AttemptOutcome.failure "down",
          AttemptOutcome.failure "down"] =
      { result := FetchResult.ok [],
        cache := [(mkCacheKey "So11111111111111111111111111111111111111112" "1h" 100,
          { data := [], timestamp := 0 })],
        calls := 3, waits := [1000, 2000] })
    ∧ (fetchBirdseyeKlines [] 0 "SOL" "1h" 100
        [AttemptOutcome.failure "down", AttemptOutcome.failure "down",
          AttemptOutcome.failure "down"] =
      { result := FetchResult.err "down", cache := [],
        calls := 3, waits := [1000, 2000] }) := by
  refine ⟨?_, ?_, ?_, ?_, ?_⟩
  · exact (C1_orchestrator_order [] 0 "XYZ" "1h" 100 []).1 (by decide)
  · exact (C1_orchestrator_order _ 50 "SOL" "1h" 100 _).2.1
      "So11111111111111111111111111111111111111112" [] (by decide) (by decide)
  · exact (C1_orchestrator_order [] 7 "SOL" "1h" 100 _).2.2.1
      "So11111111111111111111111111111111111111112"
      [⟨9, "1", "2", "3", "4", "5"⟩] (by decide) (by decide) (by decide)
  · exact (C1_orchestrator_order _ 400000 "SOL" "1h" 100 _).2.2.2.1
      "So11111111111111111111111111111111111111112" "down"
      { data := [], timestamp := 0 } (by decide) (by decide) (by decide) (by decide)
  · exact (C1_orchestrator_order [] 0 "SOL" "1h" 100 _).2.2.2.2
      "So11111111111111111111111111111111111111112" "down"
      (by decide) (by decide) (by decide) (by decide)

/-- C4: the cache key is derived from the resolved canonical identifier
together with interval and limit, so any two raw symbols resolving to the
same canonical id share one cache entry, and the second of two such calls
within the TTL window performs no upstream call (it is served the batch the
first call cached).  For the `getMarketData` variant, whose key literally
uses the uppercased symbol, any two raw symbols resolving to the same mint
also produce the same key (the hardcoded table is injective), so the key is
extensionally a function of the canonical id there as well. -/
theorem C4_cache_key_canonical :
    (∀ (s1 s2 a interval : String) (limit : Nat) (c : Cache) (now now2 : Nat)
        (outs outs2 : List AttemptOutcome) (items : List RespItem),
        getTokenAddress s1 = some a → getTokenAddress s2 = some a →
        cacheFresh CACHE_TTL c (mkCacheKey a interval limit) now = none →
        (attemptLoop2 outs 3 0 none).result = FetchResult.ok items →
        now ≤ now2 → now2 - now < CACHE_TTL →
        (fetchBirdseyeKlines
            (fetchBirdseyeKlines c now s1 interval limit outs).cache
            now2 s2 interval limit outs2).result =
          FetchResult.ok (transformItems s1 interval items)
        ∧ (fetchBirdseyeKlines
            (fetchBirdseyeKlines c now s1 interval limit outs).cache
            now2 s2 interval limit outs2).calls = 0)
    ∧ (∀ (s1 s2 m interval : String) (limit : Nat),
        gmResolve s1 = some m → gmResolve s2 = some m →
        gmCacheKey s1 interval limit = gmCacheKey s2 interval limit) := by
  constructor
  · intro s1 s2 a interval limit c now now2 outs outs2 items
      h1 h2 hf hr hle hfresh
    have hc1 : (fetchBirdseyeKlines c now s1 interval limit outs).cache =
        (mkCacheKey a interval limit,
          { data := transformItems s1 interval items, timestamp := now }) :: c := by
      unfold fetchBirdseyeKlines
      simp [h1, hf, hr]
    rw [hc1]
    unfold fetchBirdseyeKlines
    have hkey : cacheFresh CACHE_TTL
        ((mkCacheKey a interval limit,
          { data := transformItems s1 interval items, timestamp := now }) :: c)
        (mkCacheKey a interval limit) now2 =
        some (transformItems s1 interval items) := by
      unfold cacheFresh
      simp [List.lookup, hfresh]
    simp [h2, hkey]
  · intro s1 s2 m interval limit h1 h2
    have hup : toUpperModel s1 = toUpperModel s2 := by
      unfold gmResolve gmMintLookup at h1 h2
      split_ifs at h1 h2 <;> simp_all <;> subst_vars <;> simp_all
    unfold gmCacheKey
    rw [hup]

/-- C4 witness: the ticker `SOL` and its raw mint address resolve to the same
canonical id; after a cold-cache fetch of `SOL`, a fetch of the mint address
one minute later with identical interval and limit is served from the shared
cache entry with zero upstream calls; and `sol` / `SOL` yield the same
`getMarketData` cache key. -/
theorem C4_witness :
    ((fetchBirdseyeKlines
        (fetchBirdseyeKlines [] 0 "SOL" "1h" 100
          [AttemptOutcome.ok2xx
            { success := true,
              dataField := some (ItemsField.arr [⟨9, "1", "2", "3", "4", "5"⟩]) }]).cache
        60000 "So11111111111111111111111111111111111111112" "1h" 100 []).result =
      FetchResult.ok (transformItems "SOL" "1h" [⟨9, "1", "2", "3", "4", "5"⟩])
    ∧ (fetchBirdseyeKlines
        (fetchBirdseyeKlines [] 0 "SOL" "1h" 100
          [AttemptOutcome.ok2xx
            { success := true,
              dataField := some (ItemsField.arr [⟨9, "1", "2", "3", "4", "5"⟩]) }]).cache
        60000 "So11111111111111111111111111111111111111112" "1h" 100 []).calls = 0)
    ∧ gmCacheKey "sol" "1h" 100 = gmCacheKey "SOL" "1h" 100 := by
  constructor
  · exact C4_cache_key_canonical.1 "SOL"
      "So11111111111111111111111111111111111111112"
      "So11111111111111111111111111111111111111112" "1h" 100 [] 0 60000 _ []
      [⟨9, "1", "2", "3", "4", "5"⟩] (by decide) (by decide) (by decide)
      (by decide) (by decide) (by decide)
  · exact C4_cache_key_canonical.2 "sol" "SOL"
      "So11111111111111111111111111111111111111112" "1h" 100 (by decide) (by decide)

/-- C9: in the `fetchMarketData` variant, when symbol resolution succeeds but
every upstream attempt fails, no error is raised: synthetic (mock) candle
data is generated, written into the response cache under the same key used
for real data with a fresh timestamp, and returned; and every further call
for that key within the TTL window returns the synthetic data with no
upstream attempt. -/
theorem C9_mock_fallback (rc : Cache) (now : Nat) (symbol interval : String)
    (limit : Nat) (outs : List AttemptOutcome) (rand : Nat → Px)
    (mint : String) (e : Err) :
    getMintAddress symbol = some mint →
    cacheFresh CACHE_TTL_MD rc (mkCacheKey mint interval limit) now = none →
    (attemptLoop7 outs 3 0 none).result = FetchResult.err e →
    (fetchMarketData rc now symbol interval limit outs rand).result =
      FetchResult.ok (generateMockData symbol interval limit now rand)
    ∧ (fetchMarketData rc now symbol interval limit outs rand).cache =
      (mkCacheKey mint interval limit,
        { data := generateMockData symbol interval limit now rand,
          timestamp := now }) :: rc
    ∧ (∀ (now2 : Nat) (outs2 : List AttemptOutcome), now ≤ now2 →
        now2 - now < CACHE_TTL_MD →
        (fetchMarketData
            (fetchMarketData rc now symbol interval limit outs rand).cache
            now2 symbol interval limit outs2 rand).result =
          FetchResult.ok (generateMockData symbol interval limit now rand)
        ∧ (fetchMarketData
            (fetchMarketData rc now symbol interval limit outs rand).cache
            now2 symbol interval limit outs2 rand).calls = 0) := by
  intro hres hf hr
  have hmain : fetchMarketData rc now symbol interval limit outs rand =
      { result := FetchResult.ok (generateMockData symbol interval limit now rand),
        cache := (mkCacheKey mint interval limit,
          { data := generateMockData symbol interval limit now rand,
            timestamp := now }) :: rc,
        calls := (attemptLoop7 outs 3 0 none).calls,
        waits := (attemptLoop7 outs 3 0 none).waits } := by
    unfold fetchMarketData
    simp [hres, hf, hr]
  refine ⟨by rw [hmain], by rw [hmain], ?_⟩
  intro now2 outs2 hle hfresh
  rw [hmain]
  unfold fetchMarketData
  have hkey : cacheFresh CACHE_TTL_MD
      ((mkCacheKey mint interval limit,
        { data := generateMockData symbol interval limit now rand,
          timestamp := now }) :: rc)
      (mkCacheKey mint interval limit) now2 =
      some (generateMockData symbol interval limit now rand) := by
    unfold cacheFresh
    simp [List.lookup, hfresh]
  simp [hres, hkey]

/-- C9 witness: with an empty cache and three failed upstream attempts, a
`SOL` fetch returns the generated mock batch, caches it, and a second call
one second later is served the same synthetic batch with zero upstream
calls. -/
theorem C9_witness :
    ((fetchMarketData [] 0 "SOL" "1h" 2
        [AttemptOutcome.failure "down", AttemptOutcome.failure "down",
          AttemptOutcome.failure "down"] (fun _ => "9")).result =
      FetchResult.ok (generateMockData "SOL" "1h" 2 0 (fun _ => "9")))
    ∧ ((fetchMarketData
        (fetchMarketData [] 0 "SOL" "1h" 2
          [AttemptOutcome.failure "down", AttemptOutcome.failure "down",
            AttemptOutcome.failure "down"] (fun _ => "9")).cache
        1000 "SOL" "1h" 2 [] (fun _ => "9")).result =
      FetchResult.ok (generateMockData "SOL" "1h" 2 0 (fun _ => "9")))
    ∧ ((fetchMarketData
        (fetchMarketData [] 0 "SOL" "1h" 2
          [AttemptOutcome.failure "down", AttemptOutcome.failure "down",
            AttemptOutcome.failure "down"] (fun _ => "9")).cache
        1000 "SOL" "1h" 2 [] (fun _ => "9")).calls = 0) := by
  have h := C9_mock_fallback [] 0 "SOL" "1h" 2
    [AttemptOutcome.failure "down", AttemptOutcome.failure "down",
      AttemptOutcome.failure "down"] (fun _ => "9")
    "So11111111111111111111111111111111111111112" "down"
    (by decide) (by decide) (by decide)
  exact ⟨h.1, (h.2.2 1000 [] (by decide) (by decide)).1,
    (h.2.2 1000 [] (by decide) (by decide)).2⟩

/-- C5 counterexample: the claim fixes TTL = 5 minutes (300000 ms) for every
cache read, citing also the `fetchMarketData` response cache — but that cache
uses a 60000 ms TTL.  Concretely: an entry written at time 0 is read at time
100000 (well inside the claimed five-minute freshness window), yet the call
performs 3 upstream attempts and does not return the cached batch. -/
theorem C5_counterexample :
    (100000 : Nat) - 0 < 300000
    ∧ (fetchMarketData
        [(mkCacheKey "So11111111111111111111111111111111111111112" "1h" 1,
          { data := [{ symbol := "SOL", timestamp := 0, open_ := "1",
                       high := "1", low := "1", close := "1", volume := "1",
                       resolution := "1h" }], timestamp := 0 })]
        100000 "SOL" "1h" 1
        [AttemptOutcome.failure "down", AttemptOutcome.failure "down",
          AttemptOutcome.failure "down"] (fun _ => "9")).calls = 3
    ∧ (fetchMarketData
        [(mkCacheKey "So11111111111111111111111111111111111111112" "1h" 1,
          { data := [{ symbol := "SOL", timestamp := 0, open_ := "1",
                       high := "1", low := "1", close := "1", volume := "1",
                       resolution := "1h" }], timestamp := 0 })]
        100000 "SOL" "1h" 1
        [AttemptOutcome.failure "down", AttemptOutcome.failure "down",
          AttemptOutcome.failure "down"] (fun _ => "9")).result ≠
      FetchResult.ok [{ symbol := "SOL", timestamp := 0, open_ := "1",
                        high := "1", low := "1", close := "1", volume := "1",
                        resolution := "1h" }] := by
  refine ⟨by decide, by decide, by decide⟩

/-- C5 amended: freshness is the strict test `now - fetchedAt < TTL`, with
TTL = 300000 ms in the `fetchBirdseyeKlines` cache but 60000 ms in the
`fetchMarketData` response cache.  In each variant, a read strictly before
`fetchedAt + TTL` returns the cached candles with no upstream request, and a
read at or after `fetchedAt + TTL` triggers a refetch attempt (at least one
upstream call). -/
theorem C5_ttl_amended :
    CACHE_TTL = 300000
    ∧ CACHE_TTL_MD = 60000
    ∧ (∀ (s a i : String) (l : Nat) (d : List Candle) (T : Nat) (c : Cache)
        (now : Nat) (outs : List AttemptOutcome),
        getTokenAddress s = some a →
        c.lookup (mkCacheKey a i l) = some { data := d, timestamp := T } →
        (now - T < 300000 →
          fetchBirdseyeKlines c now s i l outs =
            { result := FetchResult.ok d, cache := c, calls := 0, waits := [] })
        ∧ (300000 ≤ now - T →
          1 ≤ (fetchBirdseyeKlines c now s i l outs).calls))
    ∧ (∀ (s m i : String) (l : Nat) (d : List Candle) (T : Nat) (rc : Cache)
        (now : Nat) (outs : List AttemptOutcome) (rand : Nat → Px),
        getMintAddress s = some m →
        rc.lookup (mkCacheKey m i l) = some { data := d, timestamp := T } →
        (now - T < 60000 →
          fetchMarketData rc now s i l outs rand =
            { result := FetchResult.ok d, cache := rc, calls := 0, waits := [] })
        ∧ (60000 ≤ now - T →
          1 ≤ (fetchMarketData rc now s i l outs rand).calls)) := by
  refine ⟨rfl, rfl, ?_, ?_⟩
  · intro s a i l d T c now outs hres hl
    constructor
    · intro hlt
      have hf : cacheFresh CACHE_TTL c (mkCacheKey a i l) now = some d := by
        unfold cacheFresh
        simp only [hl]
        rw [if_pos]
        exact hlt
      unfold fetchBirdseyeKlines
      simp [hres, hf]
    · intro hge
      have hf : cacheFresh CACHE_TTL c (mkCacheKey a i l) now = none := by
        unfold cacheFresh
        simp only [hl]
        rw [if_neg]
        unfold CACHE_TTL
        omega
      unfold fetchBirdseyeKlines
      have hpos := attemptLoop2_calls_pos outs 2 0 none
      cases hres2 : (attemptLoop2 outs 3 0 none).result with
      | ok items => simpa [hres, hf, hres2] using hpos
      | err e =>
        cases hl2 : c.lookup (mkCacheKey a i l) <;>
          simpa [hres, hf, hres2, hl2] using hpos
  · intro s m i l d T rc now outs rand hres hl
    constructor
    · intro hlt
      have hf : cacheFresh CACHE_TTL_MD rc (mkCacheKey m i l) now = some d := by
        unfold cacheFresh
        simp only [hl]
        rw [if_pos]
        exact hlt
      unfold fetchMarketData
      simp [hres, hf]
    · intro hge
      have hf : cacheFresh CACHE_TTL_MD rc (mkCacheKey m i l) now = none := by
        unfold cacheFresh
        simp only [hl]
        rw [if_neg]
        unfold CACHE_TTL_MD
        omega
      unfold fetchMarketData
      have hpos := attemptLoop7_calls_pos outs 2 0 none
      cases hres2 : (attemptLoop7 outs 3 0 none).result with
      | ok items => simpa [hres, hf, hres2] using hpos
      | err e => simpa [hres, hf, hres2] using hpos

/-- C5 amended witness: for an entry written at time 0, a `fetchBirdseyeKlines`
read at 299999 ms is served from the cache with zero upstream calls, and a
read at 300000 ms performs an upstream attempt; the `fetchMarketData` cache
behaves the same around 60000 ms. -/
theorem C5_ttl_amended_witness :
    (fetchBirdseyeKlines
        [(mkCacheKey "So11111111111111111111111111111111111111112" "1h" 1,
          { data := [], timestamp := 0 })] 299999 "SOL" "1h" 1 [] =
      { result := FetchResult.ok [],
        cache := [(mkCacheKey "So11111111111111111111111111111111111111112" "1h" 1,
          { data := [], timestamp := 0 })], calls := 0, waits := [] })
    ∧ 1 ≤ (fetchBirdseyeKlines
        [(mkCacheKey "So11111111111111111111111111111111111111112" "1h" 1,
          { data := [], timestamp := 0 })] 300000 "SOL" "1h" 1 []).calls
    ∧ (fetchMarketData
        [(mkCacheKey "So11111111111111111111111111111111111111112" "1h" 1,
          { data := [], timestamp := 0 })] 59999 "SOL" "1h" 1 [] (fun _ => "9") =
      { result := FetchResult.ok [],
        cache := [(mkCacheKey "So11111111111111111111111111111111111111112" "1h" 1,
          { data := [], timestamp := 0 })], calls := 0, waits := [] })
    ∧ 1 ≤ (fetchMarketData
        [(mkCacheKey "So11111111111111111111111111111111111111112" "1h" 1,
          { data := [], timestamp := 0 })] 60000 "SOL" "1h" 1 []
        (fun _ => "9")).calls := by
  exact ⟨(C5_ttl_amended.2.2.1 "SOL" "So11111111111111111111111111111111111111112"
      "1h" 1 [] 0 _ 299999 [] (by decide) (by decide)).1 (by decide),
    (C5_ttl_amended.2.2.1 "SOL" "So11111111111111111111111111111111111111112"
      "1h" 1 [] 0 _ 300000 [] (by decide) (by decide)).2 (by decide),
    (C5_ttl_amended.2.2.2 "SOL" "So11111111111111111111111111111111111111112"
      "1h" 1 [] 0 _ 59999 [] (fun _ => "9") (by decide) (by decide)).1 (by decide),
    (C5_ttl_amended.2.2.2 "SOL" "So11111111111111111111111111111111111111112"
      "1h" 1 [] 0 _ 60000 [] (fun _ => "9") (by decide) (by decide)).2 (by decide)⟩

/-- C6 counterexample: the claim says a 2xx payload with zero candle items is
treated as a retry-eligible failure and never returned as success.  But the
Birdseye validation only rejects a missing `data` field or a non-array
`items`: a 2xx body with `items = []` passes validation, so a cold-cache
`fetchBirdseyeKlines` call returns success with an empty candle sequence
after a single upstream attempt. -/
theorem C6_counterexample :
    (fetchBirdseyeKlines [] 0 "SOL" "1h" 100
        [AttemptOutcome.ok2xx
          { success := true, dataField := some (ItemsField.arr []) }]).result =
      FetchResult.ok []
    ∧ (fetchBirdseyeKlines [] 0 "SOL" "1h" 100
        [AttemptOutcome.ok2xx
          { success := true, dataField := some (ItemsField.arr []) }]).calls = 1 := by
  exact ⟨by decide, by decide⟩

/-- C6 amended: structurally invalid payloads are retried, but the two
fetchers disagree on emptiness.  The CoinGecko validation rejects a non-array
body and a zero-item array alike (both retry-eligible); the Birdseye
validation rejects a missing `data` field and a missing / non-array `items`
— consuming an attempt and backing off like any other failure, with the
`Empty or invalid response from Birdseye` error recorded — but accepts a
zero-item `items` array as a success with zero candles. -/
theorem C6_payload_validation_amended :
    (coinGeckoValid CGBody.notArray = false
      ∧ coinGeckoValid (CGBody.arr 0) = false
      ∧ ∀ n : Nat, coinGeckoValid (CGBody.arr (n + 1)) = true)
    ∧ (∀ (b : Bool) (items : List RespItem),
        birdseyeValid2 { success := b, dataField := some (ItemsField.arr items) } =
          some items)
    ∧ (∀ b : Bool,
        birdseyeValid2 { success := b, dataField := none } = none
        ∧ birdseyeValid2 { success := b, dataField := some ItemsField.missing } = none
        ∧ birdseyeValid2 { success := b, dataField := some ItemsField.notArray } = none)
    ∧ (∀ (outs : List AttemptOutcome) (f k : Nat) (le : Option Err) (b : Bool)
        (df : Option ItemsField),
        birdseyeValid2 { success := b, dataField := df } = none →
        attemptLoop2 (AttemptOutcome.ok2xx { success := b, dataField := df } :: outs)
            (f + 2) k le =
          { result := (attemptLoop2 outs (f + 1) (k + 1)
              (some "Empty or invalid response from Birdseye")).result,
            waits := 2 ^ k * 1000 :: (attemptLoop2 outs (f + 1) (k + 1)
              (some "Empty or invalid response from Birdseye")).waits,
            calls := (attemptLoop2 outs (f + 1) (k + 1)
              (some "Empty or invalid response from Birdseye")).calls + 1 })
    ∧ (∀ (outs : List AttemptOutcome) (f k : Nat) (le : Option Err) (b : Bool)
        (items : List RespItem),
        attemptLoop2 (AttemptOutcome.ok2xx
            { success := b, dataField := some (ItemsField.arr items) } :: outs)
            (f + 1) k le =
          { result := FetchResult.ok items, waits := [], calls := 1 }) := by
  refine ⟨⟨rfl, rfl, fun n => by simp [coinGeckoValid]⟩, ?_, ?_, ?_, ?_⟩
  · intro b items
    rfl
  · intro b
    exact ⟨rfl, rfl, rfl⟩
  · intro outs f k le b df hv
    conv_lhs => unfold attemptLoop2
    simp [hv]
  · intro outs f k le b items
    rfl

/-- C6 amended witness: a concrete invalid-payload attempt (missing `data`)
retries with a 1-second backoff and succeeds on the second attempt. -/
theorem C6_payload_validation_amended_witness :
    attemptLoop2
        [AttemptOutcome.ok2xx { success := true, dataField := none },
          AttemptOutcome.ok2xx
            { success := true,
              dataField := some (ItemsField.arr [⟨9, "1", "2", "3", "4", "5"⟩]) }]
        3 0 none =
      { result := FetchResult.ok [⟨9, "1", "2", "3", "4", "5"⟩],
        waits := [1000], calls := 2 } := by
  rw [C6_payload_validation_amended.2.2.2.1
    [AttemptOutcome.ok2xx
      { success := true,
        dataField := some (ItemsField.arr [⟨9, "1", "2", "3", "4", "5"⟩]) }]
    1 0 none true none rfl]
  decide

/-- C7 counterexample: the claim says a symbol that is neither
address-shaped nor a table key gets a quote-currency suffix stripped and one
retried lookup.  `getTokenAddress` (the Birdseye klines resolver) performs
no stripping at all: `SOLUSDT` resolves to `NotFound` even though the
stripped base `SOL` is in its table. -/
theorem C7_counterexample :
    getTokenAddress "SOLUSDT" = none
    ∧ SYMBOL_TO_ADDRESS.lookup "SOL" =
      some "So11111111111111111111111111111111111111112" := by
  exact ⟨by decide, by decide⟩

/-- C7 amended: `getTokenAddress` strips nothing — for a string that is not
43/44 characters long its result is exactly the single table lookup of the
raw symbol; `getMintAddress` strips exactly the `USDT` suffix (never `USD`
or `USDC`) before its single table lookup, so `SOLUSDT` resolves while
`SOLUSD` and `BONKUSDC` do not. -/
theorem C7_resolver_amended :
    (∀ s : String, s.length ≠ 44 → s.length ≠ 43 →
      getTokenAddress s = SYMBOL_TO_ADDRESS.lookup s)
    ∧ (∀ s : String, s.length ≠ 44 → s.length ≠ 43 →
      getMintAddress s = SYMBOL_TO_MINT_ADDRESS.lookup (stripUSDT s))
    ∧ getMintAddress "SOLUSDT" =
      some "So11111111111111111111111111111111111111112"
    ∧ getMintAddress "SOLUSD" = none
    ∧ getMintAddress "BONKUSDC" = none := by
  refine ⟨?_, ?_, by decide, by decide, by decide⟩
  · intro s h44 h43
    unfold getTokenAddress
    simp [h44, h43]
  · intro s h44 h43
    unfold getMintAddress
    simp [h44, h43]

/-- C7 amended witness: the Birdseye resolver's no-stripping lookup at the
concrete symbol `SOLUSDT`. -/
theorem C7_resolver_amended_witness :
    getTokenAddress "SOLUSDT" = SYMBOL_TO_ADDRESS.lookup "SOLUSDT" := by
  exact C7_resolver_amended.1 "SOLUSDT" (by decide) (by decide)

theorem addElem_ne_nil (cur : List Listener) (l : Listener) :
    addElem cur l ≠ [] := by
  unfold addElem
  by_cases hm : l ∈ cur
  · simpa [hm] using List.ne_nil_of_mem hm
  · simp [hm]

theorem add7_active (st : Registry7) (s0 : String) (l : Listener)
    (hap : st.activePolling s0 = true) :
    add7 st s0 l =
      { subs := upd st.subs s0 (some (addElem ((st.subs s0).getD []) l)),
        activePolling := st.activePolling, chains := st.chains } := by
  unfold add7
  rw [if_pos hap]

theorem add7_idle (st : Registry7) (s0 : String) (l : Listener)
    (hap : st.activePolling s0 = false) :
    add7 st s0 l =
      { subs := upd st.subs s0 (some (addElem ((st.subs s0).getD []) l)),
        activePolling := upd st.activePolling s0 true,
        chains := upd st.chains s0 (st.chains s0 + 1) } := by
  unfold add7
  rw [hap]
  simp

theorem remove7_absent (st : Registry7) (s0 : String) (l : Listener)
    (hsub : st.subs s0 = none) : remove7 st s0 l = st := by
  unfold remove7
  rw [hsub]

theorem remove7_last (st : Registry7) (s0 : String) (l : Listener)
    (cur : List Listener) (hsub : st.subs s0 = some cur)
    (hemp : cur.filter (fun x => x ≠ l) = []) :
    remove7 st s0 l =
      { subs := upd st.subs s0 none,
        activePolling := upd st.activePolling s0 false,
        chains := st.chains } := by
  unfold remove7
  rw [hsub]
  dsimp only
  rw [if_pos hemp]

theorem remove7_keep (st : Registry7) (s0 : String) (l : Listener)
    (cur : List Listener) (hsub : st.subs s0 = some cur)
    (hemp : cur.filter (fun x => x ≠ l) ≠ []) :
    remove7 st s0 l =
      { subs := upd st.subs s0 (some (cur.filter (fun x => x ≠ l))),
        activePolling := st.activePolling, chains := st.chains } := by
  unfold remove7
  rw [hsub]
  dsimp only
  rw [if_neg hemp]

theorem tick7_nochain (st : Registry7) (s0 : String)
    (fr : FetchResult (List Candle)) (hc : st.chains s0 = 0) :
    tick7 st s0 fr = (st, []) := by
  unfold tick7
  rw [if_pos hc]

theorem tick7_dead (st : Registry7) (s0 : String)
    (fr : FetchResult (List Candle)) (hc : ¬st.chains s0 = 0)
    (hsub : st.subs s0 = none) :
    tick7 st s0 fr =
      ({ st with chains := upd st.chains s0 (st.chains s0 - 1) }, []) := by
  unfold tick7
  rw [if_neg hc, hsub]

theorem tick7_live (st : Registry7) (s0 : String)
    (fr : FetchResult (List Candle)) (hc : ¬st.chains s0 = 0)
    (ls : List Listener) (hsub : st.subs s0 = some ls) :
    (tick7 st s0 fr).1 = st := by
  cases fr with
  | ok data =>
    cases hh : data.head? with
    | some c =>
      unfold tick7
      rw [if_neg hc, hsub]
      dsimp only
      rw [hh]
    | none =>
      unfold tick7
      rw [if_neg hc, hsub]
      dsimp only
      rw [hh]
  | err e =>
    unfold tick7
    rw [if_neg hc, hsub]

theorem inv7_init : Inv7 init7 := by
  intro s
  refine ⟨by simp [init7], by simp [init7], by simp [init7]⟩

theorem inv7_add (st : Registry7) (h : Inv7 st) (s0 : String) (l : Listener) :
    Inv7 (add7 st s0 l) := by
  by_cases hap : st.activePolling s0
  · rw [add7_active st s0 l hap]
    intro s
    obtain ⟨h1, h2, h3⟩ := h s
    by_cases hs : s = s0
    · subst hs
      refine ⟨?_, ?_, ?_⟩ <;> dsimp only
      · rw [upd_self]
        simp [hap]
      · intro ls hls
        rw [upd_self] at hls
        injection hls with hh
        rw [← hh]
        exact addElem_ne_nil _ _
      · intro _
        exact h3 (h1.mp hap)
    · refine ⟨?_, ?_, ?_⟩ <;> dsimp only
      · rw [upd_other _ _ _ _ hs]
        exact h1
      · rw [upd_other _ _ _ _ hs]
        exact h2
      · rw [upd_other _ _ _ _ hs]
        exact h3
  · rw [add7_idle st s0 l (by simpa using hap)]
    intro s
    obtain ⟨h1, h2, h3⟩ := h s
    by_cases hs : s = s0
    · subst hs
      refine ⟨?_, ?_, ?_⟩ <;> dsimp only
      · rw [upd_self, upd_self]
        simp
      · intro ls hls
        rw [upd_self] at hls
        injection hls with hh
        rw [← hh]
        exact addElem_ne_nil _ _
      · intro _
        rw [upd_self]
        exact Nat.le_add_left 1 _
    · refine ⟨?_, ?_, ?_⟩ <;> dsimp only
      · rw [upd_other _ _ _ _ hs, upd_other _ _ _ _ hs]
        exact h1
      · rw [upd_other _ _ _ _ hs]
        exact h2
      · rw [upd_other _ _ _ _ hs, upd_other _ _ _ _ hs]
        exact h3

theorem inv7_remove (st : Registry7) (h : Inv7 st) (s0 : String)
    (l : Listener) : Inv7 (remove7 st s0 l) := by
  cases hsub : st.subs s0 with
  | none => rw [remove7_absent st s0 l hsub]; exact h
  | some cur =>
    by_cases hemp : cur.filter (fun x => x ≠ l) = []
    · rw [remove7_last st s0 l cur hsub hemp]
      intro s
      obtain ⟨h1, h2, h3⟩ := h s
      by_cases hs : s = s0
      · subst hs
        refine ⟨?_, ?_, ?_⟩ <;> dsimp only
        · rw [upd_self, upd_self]
          simp
        · rw [upd_self]
          intro ls hls
          exact absurd hls (by simp)
        · rw [upd_self]
          intro hsome
          simp at hsome
      · refine ⟨?_, ?_, ?_⟩ <;> dsimp only
        · rw [upd_other _ _ _ _ hs, upd_other _ _ _ _ hs]
          exact h1
        · rw [upd_other _ _ _ _ hs]
          exact h2
        · rw [upd_other _ _ _ _ hs]
          exact h3
    · rw [remove7_keep st s0 l cur hsub hemp]
      intro s
      obtain ⟨h1, h2, h3⟩ := h s
      by_cases hs : s = s0
      · subst hs
        refine ⟨?_, ?_, ?_⟩ <;> dsimp only
        · rw [upd_self]
          simp only [Option.isSome_some]
          constructor
          · intro
            trivial
          · intro
            exact h1.mpr (by simp [hsub])
        · rw [upd_self]
          intro ls hls
          injection hls with hh
          rw [← hh]
          exact hemp
        · intro _
          exact h3 (by simp [hsub])
      · refine ⟨?_, ?_, ?_⟩ <;> dsimp only
        · rw [upd_other _ _ _ _ hs]
          exact h1
        · rw [upd_other _ _ _ _ hs]
          exact h2
        · rw [upd_other _ _ _ _ hs]
          exact h3

theorem inv7_tick (st : Registry7) (h : Inv7 st) (s0 : String)
    (fr : FetchResult (List Candle)) : Inv7 (tick7 st s0 fr).1 := by
  by_cases hc : st.chains s0 = 0
  · rw [tick7_nochain st s0 fr hc]
    exact h
  · cases hsub : st.subs s0 with
    | none =>
      rw [tick7_dead st s0 fr hc hsub]
      intro s
      obtain ⟨h1, h2, h3⟩ := h s
      by_cases hs : s = s0
      · subst hs
        refine ⟨h1, h2, ?_⟩
        intro hsome
        rw [hsub] at hsome
        simp at hsome
      · refine ⟨h1, h2, ?_⟩
        dsimp only
        rw [upd_other _ _ _ _ hs]
        exact h3
    | some ls =>
      rw [tick7_live st s0 fr hc ls hsub]
      exact h

theorem inv7_step (st : Registry7) (h : Inv7 st) (op : Op7) :
    Inv7 (step7 st op) := by
  cases op with
  | add s l => exact inv7_add st h s l
  | remove s l => exact inv7_remove st h s l
  | tick s fr => exact inv7_tick st h s fr

theorem inv7_run (ops : List Op7) : Inv7 (run7 ops) := by
  have : ∀ st, Inv7 st → Inv7 (ops.foldl step7 st) := by
    induction ops with
    | nil => intro st h; exact h
    | cons op ops ih =>
      intro st h
      exact ih (step7 st op) (inv7_step st h op)
  exact this init7 inv7_init

theorem mem_insertSym (a : List String) (s0 s : String) :
    s ∈ insertSym a s0 ↔ s ∈ a ∨ s = s0 := by
  unfold insertSym
  by_cases hm : s0 ∈ a
  · simp [hm]
    intro hseq
    rw [hseq]
    exact hm
  · simp [hm]

theorem add2_eq (st : Registry2) (s0 : String) (l : Listener) :
    add2 st s0 l =
      { subs := upd st.subs s0 (some (addElem ((st.subs s0).getD []) l)),
        activeSymbols := insertSym st.activeSymbols s0,
        polling := setupPolling (insertSym st.activeSymbols s0) } := rfl

theorem remove2_absent (st : Registry2) (s0 : String) (l : Listener)
    (hsub : st.subs s0 = none) : remove2 st s0 l = st := by
  unfold remove2
  rw [hsub]

theorem remove2_last (st : Registry2) (s0 : String) (l : Listener)
    (cur : List Listener) (hsub : st.subs s0 = some cur)
    (hemp : cur.filter (fun x => x ≠ l) = []) :
    remove2 st s0 l =
      { subs := upd st.subs s0 none,
        activeSymbols := st.activeSymbols.filter (fun x => x ≠ s0),
        polling := setupPolling (st.activeSymbols.filter (fun x => x ≠ s0)) } := by
  unfold remove2
  rw [hsub]
  dsimp only
  rw [if_pos hemp]

theorem remove2_keep (st : Registry2) (s0 : String) (l : Listener)
    (cur : List Listener) (hsub : st.subs s0 = some cur)
    (hemp : cur.filter (fun x => x ≠ l) ≠ []) :
    remove2 st s0 l =
      { subs := upd st.subs s0 (some (cur.filter (fun x => x ≠ l))),
        activeSymbols := st.activeSymbols, polling := st.polling } := by
  unfold remove2
  rw [hsub]
  dsimp only
  rw [if_neg hemp]

theorem inv2_init : Inv2 init2 := by
  refine ⟨rfl, by simp [init2], by simp [init2]⟩

theorem inv2_add (st : Registry2) (h : Inv2 st) (s0 : String) (l : Listener) :
    Inv2 (add2 st s0 l) := by
  obtain ⟨h1, h2, h3⟩ := h
  rw [add2_eq st s0 l]
  refine ⟨rfl, ?_, ?_⟩
  · intro s
    dsimp only
    rw [mem_insertSym]
    by_cases hs : s = s0
    · subst hs
      rw [upd_self]
      simp
    · rw [upd_other _ _ _ _ hs]
      simp [hs]
      exact h2 s
  · intro s ls
    dsimp only
    by_cases hs : s = s0
    · subst hs
      rw [upd_self]
      intro hls
      injection hls with hh
      rw [← hh]
      exact addElem_ne_nil _ _
    · rw [upd_other _ _ _ _ hs]
      exact h3 s ls

theorem inv2_remove (st : Registry2) (h : Inv2 st) (s0 : String)
    (l : Listener) : Inv2 (remove2 st s0 l) := by
  obtain ⟨h1, h2, h3⟩ := h
  cases hsub : st.subs s0 with
  | none => rw [remove2_absent st s0 l hsub]; exact ⟨h1, h2, h3⟩
  | some cur =>
    by_cases hemp : cur.filter (fun x => x ≠ l) = []
    · rw [remove2_last st s0 l cur hsub hemp]
      refine ⟨rfl, ?_, ?_⟩
      · intro s
        dsimp only
        rw [List.mem_filter]
        by_cases hs : s = s0
        · subst hs
          rw [upd_self]
          simp
        · rw [upd_other _ _ _ _ hs]
          simp [hs]
          exact h2 s
      · intro s ls
        dsimp only
        by_cases hs : s = s0
        · subst hs
          rw [upd_self]
          intro hls
          exact absurd hls (by simp)
        · rw [upd_other _ _ _ _ hs]
          exact h3 s ls
    · rw [remove2_keep st s0 l cur hsub hemp]
      refine ⟨h1, ?_, ?_⟩
      · intro s
        dsimp only
        by_cases hs : s = s0
        · subst hs
          rw [upd_self]
          simp only [Option.isSome_some]
          constructor
          · intro
            trivial
          · intro
            exact (h2 s).mpr (by simp [hsub])
        · rw [upd_other _ _ _ _ hs]
          exact h2 s
      · intro s ls
        dsimp only
        by_cases hs : s = s0
        · subst hs
          rw [upd_self]
          intro hls
          injection hls with hh
          rw [← hh]
          exact hemp
        · rw [upd_other _ _ _ _ hs]
          exact h3 s ls

theorem inv2_step (st : Registry2) (h : Inv2 st) (op : Op2) :
    Inv2 (step2 st op) := by
  cases op with
  | add s l => exact inv2_add st h s l
  | remove s l => exact inv2_remove st h s l

theorem inv2_run (ops : List Op2) : Inv2 (run2 ops) := by
  have : ∀ st, Inv2 st → Inv2 (ops.foldl step2 st) := by
    induction ops with
    | nil => intro st h; exact h
    | cons op ops ih =>
      intro st h
      exact ih (step2 st op) (inv2_step st h op)
  exact this init2 inv2_init

theorem polled2_iff (st : Registry2) (h : Inv2 st) (s : String) :
    polled2 st s ↔ ∃ ls, st.subs s = some ls ∧ ls ≠ [] := by
  obtain ⟨h1, h2, h3⟩ := h
  unfold polled2
  rw [h1]
  unfold setupPolling
  by_cases ha : st.activeSymbols = []
  · rw [if_pos ha]
    simp only [Option.getD_none, List.not_mem_nil, false_iff]
    intro ⟨ls, hls, hne⟩
    have : s ∈ st.activeSymbols := (h2 s).mpr (by simp [hls])
    rw [ha] at this
    exact absurd this (List.not_mem_nil s)
  · rw [if_neg ha]
    simp only [Option.getD_some]
    rw [h2 s]
    constructor
    · intro hsome
      obtain ⟨ls, hls⟩ := Option.isSome_iff_exists.mp hsome
      exact ⟨ls, hls, h3 s ls hls⟩
    · intro ⟨ls, hls, _⟩
      simp [hls]

/-- C2 counterexample: the claim says a polling task is active for a symbol
iff its listener set is non-empty, and that adding the first listener for a
previously idle symbol starts exactly one task, never two.  In the part_007
variant nothing ever cancels the scheduled poll chain: after add then remove,
the listener set is gone but one chain is still scheduled (it only dies at
its next tick); and re-adding a listener before that tick starts a second
chain, so two concurrent chains poll and deliver for one listener. -/
theorem C2_counterexample :
    ((run7 [Op7.add "SOL" { id := 1, resolution := "1h" },
        Op7.remove "SOL" { id := 1, resolution := "1h" }]).subs "SOL" = none
      ∧ (run7 [Op7.add "SOL" { id := 1, resolution := "1h" },
        Op7.remove "SOL" { id := 1, resolution := "1h" }]).chains "SOL" = 1)
    ∧ (run7 [Op7.add "SOL" { id := 1, resolution := "1h" },
        Op7.remove "SOL" { id := 1, resolution := "1h" },
        Op7.add "SOL" { id := 2, resolution := "1h" }]).chains "SOL" = 2 := by
  exact ⟨⟨by decide, by decide⟩, by decide⟩

/-- C2 amended: the registry bookkeeping satisfies the claimed iff — after
any sequence of operations, a symbol is marked for polling
(`activePolling` in part_007, membership in the single interval's snapshot
in part_002) exactly when its listener set is non-empty, empty listener-set
entries are deleted, and a subscribed symbol always has at least one live
poll chain; adding two listeners and removing one leaves the symbol polled
with exactly the remaining listener delivered to.  However, in the part_007
variant, removing the last listener does not cancel the already-scheduled
chain: the chain self-terminates only at its next tick after the set
empties, and re-adding a listener before that tick starts a second
concurrent chain (see the counterexample). -/
theorem C2_subscription_amended :
    (∀ (ops : List Op7) (s : String),
        ((run7 ops).activePolling s = true ↔
          ∃ ls, (run7 ops).subs s = some ls ∧ ls ≠ [])
        ∧ ((run7 ops).subs s ≠ none → 1 ≤ (run7 ops).chains s))
    ∧ (∀ (ops : List Op2) (s : String),
        polled2 (run2 ops) s ↔ ∃ ls, (run2 ops).subs s = some ls ∧ ls ≠ [])
    ∧ (∀ (s : String) (l1 l2 : Listener), l1 ≠ l2 →
        polled2 (remove2 (add2 (add2 init2 s l1) s l2) s l1) s
        ∧ (remove2 (add2 (add2 init2 s l1) s l2) s l1).subs s = some [l2]
        ∧ (∀ (data : List Candle) (c : Candle), data.getLast? = some c →
            pollStep2 (remove2 (add2 (add2 init2 s l1) s l2) s l1) s
              (FetchResult.ok data) = [(l2, c)])) := by
  refine ⟨?_, ?_, ?_⟩
  · intro ops s
    obtain ⟨h1, h2, h3⟩ := inv7_run ops s
    constructor
    · rw [h1]
      constructor
      · intro hsome
        obtain ⟨ls, hls⟩ := Option.isSome_iff_exists.mp hsome
        exact ⟨ls, hls, h2 ls hls⟩
      · intro ⟨ls, hls, _⟩
        simp [hls]
    · intro hne
      apply h3
      cases hsub : (run7 ops).subs s with
      | none => exact absurd hsub hne
      | some ls => simp
  · intro ops s
    exact polled2_iff (run2 ops) (inv2_run ops) s
  · intro s l1 l2 hne
    have hsubs1 : (add2 init2 s l1).subs s = some [l1] := by
      rw [add2_eq]
      dsimp only
      rw [upd_self]
      simp [init2, addElem]
    have hsubs2 : (add2 (add2 init2 s l1) s l2).subs s = some [l1, l2] := by
      rw [add2_eq (add2 init2 s l1) s l2]
      dsimp only
      rw [upd_self, hsubs1]
      simp [addElem, Ne.symm hne]
    have hactive2 : (add2 (add2 init2 s l1) s l2).activeSymbols = [s] := by
      rw [add2_eq (add2 init2 s l1) s l2, add2_eq init2 s l1]
      dsimp only
      simp [init2, insertSym]
    have hfil : List.filter (fun x => x ≠ l1) [l1, l2] = [l2] := by
      simp [List.filter_cons, Ne.symm hne]
    have hst3 : remove2 (add2 (add2 init2 s l1) s l2) s l1 =
        { subs := upd (add2 (add2 init2 s l1) s l2).subs s (some [l2]),
          activeSymbols := (add2 (add2 init2 s l1) s l2).activeSymbols,
          polling := (add2 (add2 init2 s l1) s l2).polling } := by
      rw [remove2_keep (add2 (add2 init2 s l1) s l2) s l1 [l1, l2] hsubs2
        (by rw [hfil]; simp)]
      rw [hfil]
    have hpoll2 : (add2 (add2 init2 s l1) s l2).polling = some [s] := by
      rw [add2_eq (add2 init2 s l1) s l2, add2_eq init2 s l1]
      dsimp only
      simp [init2, insertSym, setupPolling]
    have hsubs3 : (remove2 (add2 (add2 init2 s l1) s l2) s l1).subs s =
        some [l2] := by
      rw [hst3]
      dsimp only
      rw [upd_self]
    refine ⟨?_, hsubs3, ?_⟩
    · rw [hst3]
      unfold polled2
      dsimp only
      rw [hpoll2]
      simp
    · intro data c hlast
      unfold pollStep2
      dsimp only
      rw [hlast, hsubs3]
      simp

/-- C2 amended witness: a concrete part_007 run (add two listeners for
`BONK`, remove one) leaves `BONK` marked active with a live chain, and a
concrete part_002 two-listeners-then-remove-one scenario keeps the symbol
polled and delivers the polled candle exactly to the remaining listener. -/
theorem C2_subscription_amended_witness :
    ((run7 [Op7.add "BONK" { id := 1, resolution := "1m" },
        Op7.add "BONK" { id := 2, resolution := "5m" },
        Op7.remove "BONK" { id := 1, resolution := "1m" }]).activePolling
        "BONK" = true ↔
      ∃ ls, (run7 [Op7.add "BONK" { id := 1, resolution := "1m" },
        Op7.add "BONK" { id := 2, resolution := "5m" },
        Op7.remove "BONK" { id := 1, resolution := "1m" }]).subs "BONK" =
          some ls ∧ ls ≠ [])
    ∧ 1 ≤ (run7 [Op7.add "BONK" { id := 1, resolution := "1m" },
        Op7.add "BONK" { id := 2, resolution := "5m" },
        Op7.remove "BONK" { id := 1, resolution := "1m" }]).chains "BONK"
    ∧ polled2 (remove2 (add2 (add2 init2 "BONK" { id := 1, resolution := "1m" })
        "BONK" { id := 2, resolution := "5m" }) "BONK"
        { id := 1, resolution := "1m" }) "BONK"
    ∧ pollStep2 (remove2 (add2 (add2 init2 "BONK" { id := 1, resolution := "1m" })
        "BONK" { id := 2, resolution := "5m" }) "BONK"
        { id := 1, resolution := "1m" }) "BONK"
        (FetchResult.ok [{ symbol := "BONK", timestamp := 9, open_ := "1",
                           high := "1", low := "1", close := "1", volume := "1",
                           resolution := "1m" }]) =
      [({ id := 2, resolution := "5m" },
        { symbol := "BONK", timestamp := 9, open_ := "1", high := "1",
          low := "1", close := "1", volume := "1", resolution := "1m" })] := by
  refine ⟨(C2_subscription_amended.1 _ "BONK").1, ?_, ?_, ?_⟩
  · exact (C2_subscription_amended.1 [Op7.add "BONK" { id := 1, resolution := "1m" },
      Op7.add "BONK" { id := 2, resolution := "5m" },
      Op7.remove "BONK" { id := 1, resolution := "1m" }] "BONK").2 (by decide)
  · exact (C2_subscription_amended.2.2 "BONK" { id := 1, resolution := "1m" }
      { id := 2, resolution := "5m" } (by decide)).1
  · exact (C2_subscription_amended.2.2 "BONK" { id := 1, resolution := "1m" }
      { id := 2, resolution := "5m" } (by decide)).2.2 _ _ (by decide)

theorem getLast?_mem {α : Type} {data : List α} {c : α}
    (h : data.getLast? = some c) : c ∈ data := by
  have hc : c ∈ data.getLast? := by simp [h]
  obtain ⟨hne, heq⟩ := List.mem_getLast?_eq_getLast hc
  rw [heq]
  exact List.getLast_mem hne

theorem pollStep2_mem (st : Registry2) (s : String)
    (fr : FetchResult (List Candle)) (p : Listener × Candle)
    (hp : p ∈ pollStep2 st s fr) :
    ∃ data c, fr = FetchResult.ok data ∧ data.getLast? = some c ∧
      p.2 = c := by
  unfold pollStep2 at hp
  cases fr with
  | err e => simp at hp
  | ok data =>
    dsimp only at hp
    cases hlast : data.getLast? with
    | none => rw [hlast] at hp; simp at hp
    | some c =>
      rw [hlast] at hp
      simp only [List.mem_map] at hp
      obtain ⟨l, -, rfl⟩ := hp
      exact ⟨data, c, rfl, hlast, rfl⟩

/-- C10 counterexample: the claim says every candle delivered through the
fanout carries resolution `1m`.  The cache key is a plain string
concatenation, so a pass-through identifier containing `-` can collide with
another identifier's key: `getCandles(A, "-1m", 1)` with `A` a 43-character
string writes candles of resolution `-1m` under the very key the poll for
`B = A ++ "-"` reads, and the poll then delivers a fresh cached candle of
resolution `-1m` ≠ `1m` to `B`'s subscriber. -/
theorem C10_counterexample :
    ((pollOnce
        (add2 init2 ("aaaaaaaaaaaaaaaaaaaaaaaaaaaaaaaaaaaaaaaaaaa" ++ "-")
          { id := 1, resolution := "1h" })
        (fetchBirdseyeKlines [] 0 "aaaaaaaaaaaaaaaaaaaaaaaaaaaaaaaaaaaaaaaaaaa"
          "-1m" 1
          [AttemptOutcome.ok2xx
            { success := true,
              dataField := some (ItemsField.arr [⟨100, "1", "2", "3", "4", "5"⟩]) }]).cache
        1000 ("aaaaaaaaaaaaaaaaaaaaaaaaaaaaaaaaaaaaaaaaaaa" ++ "-") []).1.map
          (fun p => p.2.resolution) = ["-1m"])
    ∧ "-1m" ≠ "1m" := by
  exact ⟨by decide, by decide⟩

/-- C10 amended: delivered candles carry the resolution of the fetch that
produced them, and the subscription's stored resolution is never consulted.
The mapping stamps `resolution := interval` on every fetched candle; the poll
fetches with interval `1m`, so a delivered candle is `1m` whenever every
candle cached under the poll's key is `1m` (always, except under cache-key
string collisions, see the counterexample — a live poll fetch is
unconditionally `1m`); and relabelling every listener's stored resolution
changes nothing about which candles are delivered. -/
theorem C10_resolution_amended :
    (∀ (s i : String) (items : List RespItem),
        ∀ c ∈ transformItems s i items, c.resolution = i)
    ∧ (∀ (st : Registry2) (c : Cache) (now : Nat) (s addr : String)
        (outs : List AttemptOutcome),
        getTokenAddress s = some addr →
        (∀ e, c.lookup (mkCacheKey addr "1m" 1) = some e →
          ∀ cd ∈ e.data, cd.resolution = "1m") →
        ∀ p ∈ (pollOnce st c now s outs).1, p.2.resolution = "1m")
    ∧ (∀ (r : String) (st : Registry2) (s : String)
        (fr : FetchResult (List Candle)),
        (pollStep2 (relabel2 r st) s fr).map (fun p => p.2) =
          (pollStep2 st s fr).map (fun p => p.2)) := by
  refine ⟨transformItems_resolution, ?_, ?_⟩
  · intro st c now s addr outs hres hcache p hp
    unfold pollOnce at hp
    obtain ⟨data, cd, hfr, hlast, hp2⟩ := pollStep2_mem st s _ p hp
    rw [hp2]
    have hcd : cd ∈ data := getLast?_mem hlast
    have hdata : ∀ x ∈ data, x.resolution = "1m" := by
      intro x hx
      have hok : (fetchBirdseyeKlines c now s "1m" 1 outs).result =
          FetchResult.ok data := hfr
      unfold fetchBirdseyeKlines at hok
      rw [hres] at hok
      dsimp only at hok
      cases hfresh : cacheFresh CACHE_TTL c (mkCacheKey addr "1m" 1) now with
      | some d =>
        rw [hfresh] at hok
        dsimp only at hok
        injection hok with hd
        unfold cacheFresh at hfresh
        cases hl : c.lookup (mkCacheKey addr "1m" 1) with
        | none => rw [hl] at hfresh; simp at hfresh
        | some e =>
          rw [hl] at hfresh
          have hde : d = e.data := by
            by_cases ht : now - e.timestamp < CACHE_TTL
            · simpa [ht] using hfresh.symm
            · simp [ht] at hfresh
          apply hcache e hl
          rw [← hde, hd]
          exact hx
      | none =>
        rw [hfresh] at hok
        dsimp only at hok
        cases hloop : (attemptLoop2 outs 3 0 none).result with
        | ok items =>
          rw [hloop] at hok
          dsimp only at hok
          injection hok with hd
          apply transformItems_resolution s "1m" items
          rw [hd]
          exact hx
        | err e =>
          rw [hloop] at hok
          dsimp only at hok
          cases hl : c.lookup (mkCacheKey addr "1m" 1) with
          | none => rw [hl] at hok; simp at hok
          | some st2 =>
            rw [hl] at hok
            dsimp only at hok
            injection hok with hd
            apply hcache st2 hl
            rw [hd]
            exact hx
    exact hdata cd hcd
  · intro r st s fr
    unfold pollStep2 relabel2 relabelSubs
    cases fr with
    | err e => rfl
    | ok data =>
      dsimp only
      cases hlast : data.getLast? with
      | none => rfl
      | some c =>
        cases hsub : st.subs s with
        | none => simp [hsub]
        | some ls => simp [hsub, List.map_map, Function.comp]

/-- C10 amended witness: a concrete poll over a cache whose entry at the
poll key holds only `1m` candles delivers `1m` candles, and relabelling the
listener's stored resolution leaves the delivered candles unchanged. -/
theorem C10_resolution_amended_witness :
    (∀ p ∈ (pollOnce (add2 init2 "SOL" { id := 1, resolution := "4h" })
        [(mkCacheKey "So11111111111111111111111111111111111111112" "1m" 1,
          { data := [{ symbol := "SOL", timestamp := 3, open_ := "1",
                       high := "1", low := "1", close := "1", volume := "1",
                       resolution := "1m" }], timestamp := 0 })]
        1000 "SOL" []).1, p.2.resolution = "1m")
    ∧ (pollStep2 (relabel2 "9z" (add2 init2 "SOL" { id := 1, resolution := "4h" }))
        "SOL" (FetchResult.ok [{ symbol := "SOL", timestamp := 3, open_ := "1",
                                 high := "1", low := "1", close := "1",
                                 volume := "1", resolution := "1m" }])).map
          (fun p => p.2) =
      (pollStep2 (add2 init2 "SOL" { id := 1, resolution := "4h" })
        "SOL" (FetchResult.ok [{ symbol := "SOL", timestamp := 3, open_ := "1",
                                 high := "1", low := "1", close := "1",
                                 volume := "1", resolution := "1m" }])).map
          (fun p => p.2) := by
  constructor
  · exact C10_resolution_amended.2.1 _ _ 1000 "SOL"
      "So11111111111111111111111111111111111111112" [] (by decide)
      (by intro e he cd hcd
          simp [List.lookup] at he
          subst he
          simp at hcd
          rw [hcd])
  · exact C10_resolution_amended.2.2 "9z" _ "SOL" _

end ServerDeploy
